import Mathlib

/-!
Verification of the cross-platform compatibility checker against its
natural-language specification.

The definitions below are a shallow embedding of the Python sources under
`cross_platform_checker/` and `app/`: per-line lexical checks, the
candidate/pruner pipeline, the orchestrator `check_file`, the two
circular-dependency detectors, the AI status probe, and the upload-limit
error path.  Python strings are modelled as `String` (scans work on
`String.data`), regular expressions are compiled by hand into explicit
scanning functions faithful to Python `re` search semantics for the
concrete patterns involved, and Python `dict`s are modelled as ordered
association lists.
-/

set_option maxRecDepth 8192

namespace CompatChecker

/-! ### Character classes and low-level string helpers -/

/-- Double-quote character. -/
def dq : Char := Char.ofNat 34

/-- Single-quote character. -/
def sq : Char := Char.ofNat 39

/-- Backslash character. -/
def bsl : Char := Char.ofNat 92

/-- Python whitespace for `str.strip()` and the regex class backslash-s. -/
def pySpace (c : Char) : Bool :=
  c == ' ' || c == Char.ofNat 9 || c == Char.ofNat 10 || c == Char.ofNat 13 ||
  c == Char.ofNat 11 || c == Char.ofNat 12

/-- ASCII letter. -/
def asciiAlpha (c : Char) : Bool :=
  ('a' ≤ c && c ≤ 'z') || ('A' ≤ c && c ≤ 'Z')

/-- ASCII uppercase letter. -/
def asciiUpper (c : Char) : Bool := 'A' ≤ c && c ≤ 'Z'

/-- ASCII digit. -/
def asciiDigit (c : Char) : Bool := '0' ≤ c && c ≤ '9'

/-- Python regex word character (ASCII fragment of backslash-w). -/
def wordChar (c : Char) : Bool := asciiAlpha c || asciiDigit c || c == '_'

/-- ASCII lower-casing, as used by Python `str.lower()` on ASCII input. -/
def lowerChar (c : Char) : Char :=
  if asciiUpper c then Char.ofNat (c.toNat + 32) else c

/-- Quote character (either kind). -/
def isQuote (c : Char) : Bool := c == dq || c == sq

/-- Strip characters satisfying `p` from the front of a list. -/
def dropWhileP (p : Char → Bool) : List Char → List Char
  | [] => []
  | c :: cs => if p c then dropWhileP p cs else c :: cs

/-- Python `str.strip()` on a character list. -/
def pyStrip (cs : List Char) : List Char :=
  ((dropWhileP pySpace cs.reverse).reverse |> dropWhileP pySpace)

/-- Python strip of both quote characters from either end (used as
`.strip()` of a quote set in the sources). -/
def stripQuotes (cs : List Char) : List Char :=
  ((dropWhileP isQuote cs.reverse).reverse |> dropWhileP isQuote)

/-- Does `l` start with `pre`? -/
def startsWithList : List Char → List Char → Bool
  | _, [] => true
  | [], _ :: _ => false
  | a :: as, b :: bs => a == b && startsWithList as bs

/-- Does `pre` occur in `l` as a contiguous sublist (Python `in` on strings)? -/
def containsSub : List Char → List Char → Bool
  | [], needle => needle.isEmpty
  | c :: cs, needle => startsWithList (c :: cs) needle || containsSub cs needle

/-- Index of the first occurrence of `needle` in `l` (Python `str.find`). -/
def findSub : List Char → List Char → Option Nat
  | [], needle => if needle.isEmpty then some 0 else none
  | c :: cs, needle =>
    if startsWithList (c :: cs) needle then some 0
    else (findSub cs needle).map (· + 1)

/-- Python `needle in hay` on strings. -/
def strContains (hay needle : String) : Bool := containsSub hay.data needle.data

/-- Python `hay.find(needle)` on strings (`none` for not found). -/
def strFind (hay needle : String) : Option Nat := findSub hay.data needle.data

/-- Python `hay.startswith(needle)`. -/
def strStartsWith (hay needle : String) : Bool := startsWithList hay.data needle.data

/-- Python `s.strip()` on strings. -/
def strStrip (s : String) : String := ⟨pyStrip s.data⟩

/-- Character membership in a string (Python `c in s` for a 1-char needle). -/
def strHasChar (s : String) (c : Char) : Bool := s.data.contains c

/-- Python `s.lower()`. -/
def strLower (s : String) : String := ⟨s.data.map lowerChar⟩

/-- Python `s[:n]`. -/
def strTake (s : String) (n : Nat) : String := ⟨s.data.take n⟩

/-! ### Data model (`issue.py`) -/

/-- Issue severity levels. -/
inductive Severity where
  | ERROR
  | WARNING
  | INFO
deriving DecidableEq, Repr

/-- A reported cross-platform compatibility issue. -/
structure Issue where
  severity : Severity
  line_number : Nat
  column : Nat
  message : String
  code : String
  suggestion : String
  category : String
deriving DecidableEq, Repr

/-- The `context_data` dictionary attached to a `Candidate`; only the keys
actually written by the checkers are modelled (`var` for variable-path
candidates, `literal`/`column` for env candidates). -/
structure ContextData where
  var : Option String := none
  literal : Option String := none
  columnData : Option Nat := none
deriving DecidableEq, Repr

/-- A potential issue that needs wider-scope context to promote or drop. -/
structure Candidate where
  severity : Severity
  line_number : Nat
  column : Nat
  message : String
  code : String
  suggestion : String
  category : String
  context_type : String
  context_data : ContextData := {}
deriving DecidableEq, Repr

/-! ### `utils.py` -/

/-- Substrings indicating file I/O or path APIs on a Python line
(`FILE_PATH_CONTEXT_PYTHON`). -/
def FILE_PATH_CONTEXT_PYTHON : List String :=
  ["open(", "with open", "Path(", "pathlib.", "os.path.", "exists(", "isfile(", "isdir(",
   "chdir(", "listdir(", "glob(", "rglob(", "mkdir", "unlink(", "rename(", "shutil.",
   "expanduser(", "abspath(", "realpath(", "read(", "write("]

/-- `FILE_PATH_CONTEXT_JAVASCRIPT`. -/
def FILE_PATH_CONTEXT_JAVASCRIPT : List String :=
  ["readFile", "writeFile", "existsSync", "path.join", "path.resolve", "path.",
   "fs.readFile", "fs.writeFile", "fs.exists", "fs.stat", "fs.mkdir", "fs.readdir"]

/-- `FILE_PATH_CONTEXT_JAVA`. -/
def FILE_PATH_CONTEXT_JAVA : List String :=
  ["new File(", "Paths.get(", "Path.of(", "Files.", "FileReader(", "FileWriter(",
   "FileInputStream(", "FileOutputStream(", "RandomAccessFile("]

/-- `FILE_PATH_CONTEXT_RUST`. -/
def FILE_PATH_CONTEXT_RUST : List String :=
  ["std::fs::", "Path::", "PathBuf::", "File::open", "OpenOptions", "read_dir",
   "create_dir", "metadata", "canonicalize", "read_to_string", "write", "copy",
   "remove_file", "remove_dir", "symlink", "std::path::"]

/-- `FILE_PATH_CONTEXT_CSHARP`. -/
def FILE_PATH_CONTEXT_CSHARP : List String :=
  ["Path.Combine", "File.", "Directory.", "FileInfo", "DirectoryInfo", "FileStream",
   "File.Read", "File.Write", "Directory.GetFiles", "Directory.GetDirectories",
   "Path.GetFullPath", "Environment.GetFolderPath"]

/-- `URL_OR_DISPLAY_INDICATORS`. -/
def URL_OR_DISPLAY_INDICATORS : List String :=
  ["http://", "https://", "://", "url", "href", "fetch(", "request(", "endpoint",
   "api.", "GET", "POST", "print(", "log(", "message", "display"]

/-- `is_file_path_context(line, language)`. -/
def is_file_path_context (line : String) (language : String) : Bool :=
  if language == "python" then FILE_PATH_CONTEXT_PYTHON.any (strContains line ·)
  else if language == "javascript" || language == "typescript" then
    FILE_PATH_CONTEXT_JAVASCRIPT.any (strContains line ·)
  else if language == "java" then FILE_PATH_CONTEXT_JAVA.any (strContains line ·)
  else if language == "rust" then FILE_PATH_CONTEXT_RUST.any (strContains line ·)
  else if language == "csharp" then FILE_PATH_CONTEXT_CSHARP.any (strContains line ·)
  else false

/-- `is_likely_url_or_display(line, matched_str)`. -/
def is_likely_url_or_display (line : String) (matched_str : String := "") : Bool :=
  if URL_OR_DISPLAY_INDICATORS.any (strContains line ·) then true
  else
    let s : List Char := stripQuotes (pyStrip matched_str.data)
    containsSub s "://".data || startsWithList s "http".data || startsWithList s "//".data

/-- Character class of the MIME-subtype part (`[a-zA-Z0-9.+*-]`). -/
def mimeSubChar (c : Char) : Bool :=
  asciiAlpha c || asciiDigit c || c == '.' || c == '+' || c == '*' || c == '-'

/-- Match of `_MIME_TYPE_PATTERN` (anchored, case-insensitive). -/
def mimeTypeMatch (cs : List Char) : Bool :=
  let low := cs.map lowerChar
  ["text", "application", "image", "audio", "video", "font", "multipart"].any fun alt =>
    startsWithList low (alt.data ++ [ '/' ]) &&
    (let rest := low.drop (alt.length + 1)
     !rest.isEmpty && rest.all mimeSubChar)

/-- Does `^[A-Za-z]:[/ or backslash]` match at the head of `cs`? -/
def driveAtStart (cs : List Char) : Bool :=
  match cs with
  | a :: b :: c :: _ => asciiAlpha a && b == ':' && (c == '/' || c == bsl)
  | _ => false

/-- Does `[A-Za-z]: backslash` occur anywhere in `cs`? -/
def driveBackslashAnywhere : List Char → Bool
  | a :: b :: c :: rest =>
    (asciiAlpha a && b == ':' && c == bsl) || driveBackslashAnywhere (b :: c :: rest)
  | _ => false

/-- `looks_like_file_path(s)`. -/
def looks_like_file_path (s : String) : Bool :=
  let cs := stripQuotes (pyStrip s.data)
  if cs.length < 2 then false
  else if mimeTypeMatch cs then false
  else if !(cs.contains '/' || cs.contains bsl) then false
  else if (match cs with | c :: _ => c == '/' || c == bsl | [] => false) || driveAtStart cs then
    true
  else if ["/home/", "/usr/", "/etc/", "/tmp/", "/var/", "/Users/"].any
      (fun p => containsSub cs p.data) then
    true
  else if driveBackslashAnywhere cs then true
  else false

/-- Identifier start class of the variable-path regexes (`[a-zA-Z_]`, plus `$`
for the JavaScript variant). -/
def identStartPy (c : Char) : Bool := asciiAlpha c || c == '_'

/-- Identifier continuation class (`[a-zA-Z0-9_.]`). -/
def identRestPy (c : Char) : Bool := asciiAlpha c || asciiDigit c || c == '_' || c == '.'

/-- Identifier start class for JavaScript (`[a-zA-Z_$]`). -/
def identStartJs (c : Char) : Bool := asciiAlpha c || c == '_' || c == '$'

/-- Identifier continuation class for JavaScript (`[a-zA-Z0-9_.$]`). -/
def identRestJs (c : Char) : Bool :=
  asciiAlpha c || asciiDigit c || c == '_' || c == '.' || c == '$'

/-- Split a maximal run of characters satisfying `p`: returns the run length
and the remainder. -/
def spanLen (p : Char → Bool) : List Char → Nat × List Char
  | [] => (0, [])
  | c :: cs =>
    if p c then
      let (n, rest) := spanLen p cs
      (n + 1, rest)
    else (0, c :: cs)

/-- Match the common tail of the variable-path regexes right after the call
name: whitespace, an opening paren, whitespace, a (non-quoted) identifier,
whitespace, and a comma or closing paren.  Returns the captured identifier
and the number of characters consumed. -/
def matchCallArgTail (identStart identRest : Char → Bool) (cs : List Char) :
    Option (String × Nat) :=
  let (w1, r1) := spanLen pySpace cs
  match r1 with
  | '(' :: r2 =>
    let (w2, r3) := spanLen pySpace r2
    match r3 with
    | c :: r4 =>
      if identStart c then
        let (idLen, r5) := spanLen identRest r4
        let ident : String := ⟨c :: r4.take idLen⟩
        let (w3, r6) := spanLen pySpace r5
        match r6 with
        | d :: _ =>
          if d == ',' || d == ')' then
            some (ident, w1 + 1 + w2 + 1 + idLen + w3 + 1)
          else none
        | [] => none
      else none
    | [] => none
  | _ => none

/-- Try each literal alternative of a variable-path regex at the head of
`cs`; on an alternative match, require the call-argument tail. -/
def matchCallArgAt (alts : List String) (identStart identRest : Char → Bool)
    (cs : List Char) : Option (String × Nat) :=
  match alts with
  | [] => none
  | alt :: rest =>
    if startsWithList cs alt.data then
      match matchCallArgTail identStart identRest (cs.drop alt.length) with
      | some (v, len) => some (v, alt.length + len)
      | none => matchCallArgAt rest identStart identRest cs
    else matchCallArgAt rest identStart identRest cs

/-- Does the variable-path regex with literal alternatives `alts` match
anywhere in `cs` (Python `re.search` as a Boolean)? -/
def callArgSearch (alts : List String) (identStart identRest : Char → Bool) :
    List Char → Bool
  | [] => false
  | c :: cs =>
    (matchCallArgAt alts identStart identRest (c :: cs)).isSome ||
    callArgSearch alts identStart identRest cs

/-- Alternatives of `_VAR_PATH_PYTHON`. -/
def varPathAltsPython : List String :=
  ["open", "Path", "exists", "isfile", "isdir", "chdir", "listdir", "expanduser",
   "abspath", "realpath"]

/-- Alternatives of `_VAR_PATH_JAVASCRIPT`. -/
def varPathAltsJavascript : List String :=
  ["readFile", "writeFile", "existsSync", "stat", "mkdir", "readdir"]

/-- Literal alternatives of `_VAR_PATH_RUST` (the nested `std::fs::` group is
expanded in source order). -/
def varPathAltsRust : List String :=
  ["File::open", "Path::new", "PathBuf::from", "read_to_string", "read_dir",
   "create_dir", "metadata", "canonicalize",
   "std::fs::read_dir", "std::fs::read_to_string", "std::fs::read", "std::fs::write",
   "std::fs::create_dir", "std::fs::metadata", "std::fs::canonicalize"]

/-- Literal alternatives of `_VAR_PATH_CSHARP` (nested groups expanded in
source order). -/
def varPathAltsCsharp : List String :=
  ["File.ReadAllText", "File.ReadAllBytes", "File.WriteAllText", "File.Exists",
   "File.Open", "File.Create",
   "Directory.Exists", "Directory.GetFiles", "Directory.GetDirectories",
   "Directory.CreateDirectory", "Path.Combine"]

/-- Match `new` + whitespace + one of `names` at the head of `cs`, returning
the consumed length (used by the Java and C# `new Xxx(` variable-path
regexes). -/
def matchNewName (names : List String) (cs : List Char) : Option Nat :=
  if startsWithList cs "new".data then
    let (w, r) := spanLen pySpace (cs.drop 3)
    if w == 0 then none
    else
      names.findSome? fun n =>
        if startsWithList r n.data then some (3 + w + n.length) else none
  else none

/-- Match one alternative of `_VAR_PATH_JAVA` at the head of `cs`, returning
the consumed length. -/
def matchJavaVarPathAlt (cs : List Char) : Option Nat :=
  match matchNewName ["File"] cs with
  | some n => some n
  | none =>
    (["Paths.get", "Path.of",
      "Files.readAllBytes", "Files.write", "Files.readAllLines",
      "Files.newBufferedReader", "Files.newBufferedWriter",
      "Files.newInputStream", "Files.newOutputStream"].findSome? fun alt =>
        if startsWithList cs alt.data then some alt.length else none)

/-- `_VAR_PATH_JAVA` as a Boolean search. -/
def javaVarPathSearch : List Char → Bool
  | [] => false
  | c :: cs =>
    (match matchJavaVarPathAlt (c :: cs) with
     | some n =>
       (matchCallArgTail identStartPy identRestPy ((c :: cs).drop n)).isSome
     | none => false) ||
    javaVarPathSearch cs

/-- `_VAR_PATH_CSHARP_NEW` as a Boolean search. -/
def csharpNewVarPathSearch : List Char → Bool
  | [] => false
  | c :: cs =>
    (match matchNewName ["FileInfo", "DirectoryInfo"] (c :: cs) with
     | some n =>
       (matchCallArgTail identStartPy identRestPy ((c :: cs).drop n)).isSome
     | none => false) ||
    csharpNewVarPathSearch cs

/-- `has_variable_path_argument(line, language)`. -/
def has_variable_path_argument (line : String) (language : String) : Bool :=
  if language == "python" then
    callArgSearch varPathAltsPython identStartPy identRestPy line.data
  else if language == "javascript" || language == "typescript" then
    callArgSearch varPathAltsJavascript identStartJs identRestJs line.data
  else if language == "java" then javaVarPathSearch line.data
  else if language == "rust" then
    callArgSearch varPathAltsRust identStartPy identRestPy line.data
  else if language == "csharp" then
    callArgSearch varPathAltsCsharp identStartPy identRestPy line.data ||
    csharpNewVarPathSearch line.data
  else false

/-- `detect_language(file_path)`; the argument is the lower-cased extension
(`file_path.suffix.lower()`), e.g. `".py"`. -/
def detect_language (ext : String) : String :=
  if ext == ".py" then "python"
  else if ext == ".cpp" then "cpp"
  else if ext == ".cxx" then "cpp"
  else if ext == ".cc" then "cpp"
  else if ext == ".c" then "c"
  else if ext == ".h" then "c"
  else if ext == ".hpp" then "cpp"
  else if ext == ".js" then "javascript"
  else if ext == ".jsx" then "javascript"
  else if ext == ".ts" then "typescript"
  else if ext == ".java" then "java"
  else if ext == ".go" then "go"
  else if ext == ".rs" then "rust"
  else if ext == ".cs" then "csharp"
  else "unknown"

/-- Quote-state scan of `position_inside_string_literal`: processes
`remaining` characters, tracking the previous character and the open-quote
state; returns the quote state after the processed span. -/
def quoteStateAfter : List Char → Option Char → Option Char → Nat → Option Char
  | _, _, inQ, 0 => inQ
  | [], _, inQ, _ + 1 => inQ
  | c :: rest, prev, inQ, r + 1 =>
    let escaped := match prev with
      | some p => p == bsl
      | none => false
    let inQ' :=
      if isQuote c && !escaped then
        match inQ with
        | none => some c
        | some q => if c == q then none else some q
      else inQ
    quoteStateAfter rest (some c) inQ' r

/-- `position_inside_string_literal(line, pos)`. -/
def position_inside_string_literal (line : String) (pos : Nat) : Bool :=
  if pos < line.data.length then
    (quoteStateAfter line.data none none (pos + 1)).isSome
  else false

/-- `is_comment(line)`. -/
def is_comment (line : String) : Bool :=
  let stripped := pyStrip line.data
  ["#", "//", "/*", "*"].any fun p => startsWithList stripped p.data

/-- The single-quote character as a string. -/
def sqStr : String := ⟨[sq]⟩

/-- The double-quote character as a string. -/
def dqStr : String := ⟨[dq]⟩

/-! ### Assignment regex shared by `path_checker.py`, `python_checker.py`
and `context_pruner.py` -/

/-- Match the assignment regex (word run, `=`, quoted literal) at the head of
`cs`, capturing the variable name and the literal between the quotes. -/
def matchAssignAt (cs : List Char) : Option (String × String) :=
  match cs with
  | c :: rest =>
    if wordChar c then
      let (wLen, r1) := spanLen wordChar rest
      let varName : String := ⟨c :: rest.take wLen⟩
      let (_, r2) := spanLen pySpace r1
      match r2 with
      | '=' :: r3 =>
        let (_, r4) := spanLen pySpace r3
        match r4 with
        | q :: r5 =>
          if isQuote q then
            let (litLen, r6) := spanLen (fun ch => !isQuote ch) r5
            match r6 with
            | q2 :: _ => if isQuote q2 then some (varName, ⟨r5.take litLen⟩) else none
            | [] => none
          else none
        | [] => none
      | _ => none
    else none
  | [] => none

/-- `re.search` of the assignment regex: leftmost match. -/
def searchAssign : List Char → Option (String × String)
  | [] => none
  | c :: cs =>
    match matchAssignAt (c :: cs) with
    | some r => some r
    | none => searchAssign cs

/-! ### `checkers/path_checker.py` -/

/-- The escape sequences excluded by `_check_path_separators`. -/
def escapeSequences : List String :=
  ["\\n", "\\t", "\\r", "\\b", "\\f", "\\v", "\\a", "\\" ++ dqStr, "\\" ++ sqStr, "\\\\"]

/-- Character class `[A-Za-z0-9_/]` of the path-separator pattern. -/
def pathSepClass (c : Char) : Bool :=
  asciiAlpha c || asciiDigit c || c == '_' || c == '/'

/-- First alternative of `path_sep_pattern`: class char, backslash, class
char, anywhere. -/
def pathSepAltA : List Char → Bool
  | a :: b :: c :: rest =>
    (pathSepClass a && b == bsl && pathSepClass c) || pathSepAltA (b :: c :: rest)
  | _ => false

/-- Second and third alternatives of `path_sep_pattern` at one position:
a quote, then either a word run + `:` + backslash, or a nonempty word run +
backslash + word char. -/
def pathSepAltBCAt (cs : List Char) : Bool :=
  match cs with
  | q :: rest =>
    isQuote q &&
      (let (wl, r) := spanLen wordChar rest
       match r with
       | ':' :: b2 :: _ => b2 == bsl
       | c1 :: c2 :: _ => decide (1 ≤ wl) && c1 == bsl && wordChar c2
       | _ => false)
  | [] => false

/-- `path_sep_pattern.search(line)` as a Boolean. -/
def pathSepSearch (cs : List Char) : Bool :=
  pathSepAltA cs || pathSepAnyBC cs
where
  pathSepAnyBC : List Char → Bool
    | [] => false
    | c :: rest => pathSepAltBCAt (c :: rest) || pathSepAnyBC rest

/-- The regex of the Unix-forward-slash branch: a quote, optionally an
uppercase drive letter and colon, then a slash or backslash. -/
def quoteSlashSearch : List Char → Bool
  | [] => false
  | q :: rest =>
    (isQuote q &&
      ((match rest with
        | c :: _ => c == '/' || c == bsl
        | [] => false) ||
       (match rest with
        | a :: b :: c :: _ => asciiUpper a && b == ':' && (c == '/' || c == bsl)
        | _ => false))) ||
    quoteSlashSearch rest

/-- The `self.language or "python"` idiom (empty string is falsy). -/
def langOrPython (language : String) : String :=
  if language == "" then "python" else language

/-- Suggestion text of the hardcoded-path findings. -/
def hardcodedPathSuggestion : String :=
  "Use environment variables or platform APIs (os.path.expanduser, getenv(" ++
  sqStr ++ "HOME" ++ sqStr ++ "), etc.)"

/-- One line of `_check_path_separators`. -/
def check_path_separators_line (language : String) (i : Nat) (line : String) : List Issue :=
  if is_comment line then []
  else if !is_file_path_context line (langOrPython language) then []
  else if is_likely_url_or_display line then []
  else
    (if strContains line "\\" && pathSepSearch line.data &&
        !(escapeSequences.any (strContains line ·)) then
      [{ severity := .ERROR, line_number := i, column := (strFind line "\\").getD 0,
         message := "Hardcoded Windows path separator (backslash) detected",
         code := strStrip line,
         suggestion := "Use os.path.join() (Python), std::filesystem::path (C++), or path.join() (Node.js)",
         category := "PATH_SEPARATOR" }]
    else []) ++
    (if quoteSlashSearch line.data &&
        (strContains line "/home/" || strContains line "/usr/" || strContains line "/etc/") then
      [{ severity := .WARNING, line_number := i, column := 0,
         message := "Hardcoded Unix-style path detected",
         code := strStrip line,
         suggestion := "Use platform-agnostic path APIs instead",
         category := "HARDCODED_PATH" }]
    else [])

/-- The seven absolute-path prefix patterns of `_check_hardcoded_paths`, in
table order, with their descriptions. -/
def hardcodedPathPatternTable : List (String × String) :=
  [("C:\\", "Windows drive letter"),
   ("/home/", "Unix home directory"),
   ("/Users/", "macOS home directory"),
   ("/usr/", "Unix system directory"),
   ("/etc/", "Unix config directory"),
   ("/tmp/", "Unix temp directory"),
   ("/var/", "Unix variable directory")]

/-- Does the quoted-prefix pattern of `p` match in `line` (a quote of either
kind immediately followed by `p`)? -/
def quotedPatternOccurs (p : String) (line : String) : Bool :=
  strContains line (dqStr ++ p) || strContains line (sqStr ++ p)

/-- Description of the first pattern of the table that matches in `line`. -/
def firstHardcodedMatch (line : String) : Option String :=
  hardcodedPathPatternTable.findSome? fun pd =>
    if quotedPatternOccurs pd.1 line then some pd.2 else none

/-- One line of `_check_hardcoded_paths` (with `hasSink` standing for
`self.candidates is not None`). -/
def check_hardcoded_paths_line (language : String) (hasSink : Bool) (i : Nat)
    (line : String) : List Issue × List Candidate :=
  if is_comment line then ([], [])
  else if is_likely_url_or_display line then ([], [])
  else
    match firstHardcodedMatch line with
    | none => ([], [])
    | some desc =>
      if is_file_path_context line (langOrPython language) then
        ([{ severity := .ERROR, line_number := i, column := 0,
            message := "Hardcoded " ++ desc ++ " path detected",
            code := strStrip line,
            suggestion := hardcodedPathSuggestion,
            category := "HARDCODED_PATH" }], [])
      else if hasSink then
        match searchAssign line.data with
        | some (var, _) =>
          ([], [{ severity := .ERROR, line_number := i, column := 0,
                  message := "Hardcoded " ++ desc ++ " path detected",
                  code := strStrip line,
                  suggestion := hardcodedPathSuggestion,
                  category := "HARDCODED_PATH",
                  context_type := "variable_path",
                  context_data := { var := some var } }])
        | none => ([], [])
      else ([], [])

/-- Concatenate per-line issue/candidate outputs in line order (lines are
numbered from 1). -/
def gatherLines (f : Nat → String → List Issue × List Candidate)
    (lines : List String) : List Issue × List Candidate :=
  ((List.enumFrom 1 lines).map fun p => f p.1 p.2).foldr
    (fun a b => (a.1 ++ b.1, a.2 ++ b.2)) ([], [])

/-- Concatenate per-line issue outputs in line order. -/
def gatherIssueLines (f : Nat → String → List Issue) (lines : List String) : List Issue :=
  ((List.enumFrom 1 lines).map fun p => f p.1 p.2).flatten

/-- `PathChecker.check`: the two sub-checks in source order. -/
def pathCheckerCheck (language : String) (hasSink : Bool) (lines : List String) :
    List Issue × List Candidate :=
  let sep := gatherIssueLines (check_path_separators_line language) lines
  let hc := gatherLines (check_hardcoded_paths_line language hasSink) lines
  (sep ++ hc.1, hc.2)

/-! ### `checkers/api_checker.py` -/

/-- Case-insensitive list match (ASCII lowering, as Python `re.IGNORECASE`
behaves on the ASCII API names involved). -/
def startsWithCI : List Char → List Char → Bool
  | _, [] => true
  | [], _ :: _ => false
  | a :: as, b :: bs => lowerChar a == lowerChar b && startsWithCI as bs

/-- Generic leftmost-match scanner: `matchAt` receives the suffix at each
position together with the previous character (for word boundaries) and the
scanner returns the first position where it succeeds, with its value. -/
def searchPosAux (matchAt : List Char → Option Char → Option α) :
    Nat → Option Char → List Char → Option (Nat × α)
  | _, _, [] => none
  | p, prev, c :: cs =>
    match matchAt (c :: cs) prev with
    | some a => some (p, a)
    | none => searchPosAux matchAt (p + 1) (some c) cs

/-- Leftmost match of `matchAt` over the whole list. -/
def searchPos (matchAt : List Char → Option Char → Option α) (cs : List Char) :
    Option (Nat × α) :=
  searchPosAux matchAt 0 none cs

/-- Match one platform API name at the head of `cs`: the name itself
(case-insensitively), and — unless the name ends in an underscore — optional
whitespace and an opening paren.  Returns the total match length. -/
def matchApiAt (api : String) (needsParen : Bool) (cs : List Char) : Option Nat :=
  if startsWithCI cs api.data then
    if needsParen then
      let r := cs.drop api.length
      let (w, r2) := spanLen pySpace r
      match r2 with
      | '(' :: _ => some (api.length + w + 1)
      | _ => none
    else some api.length
  else none

/-- `re.finditer` scan of one API pattern over one line, skipping matches
that fall inside string literals and continuing after them; returns the
first accepted match position.  Structural recursion on a fuel that the
caller sets to the line length: every step consumes at least one character,
so the fuel never runs out before the list does. -/
def apiScanAux (line : String) (api : String) (needsParen : Bool) :
    Nat → Nat → Option Char → List Char → Option Nat
  | 0, _, _, _ => none
  | _ + 1, _, _, [] => none
  | fuel + 1, p, prev, c :: cs =>
    let boundary := match prev with
      | none => true
      | some pc => !wordChar pc
    match (if boundary then matchApiAt api needsParen (c :: cs) else none) with
    | some len =>
      if position_inside_string_literal line p then
        let step := max len 1
        apiScanAux line api needsParen fuel (p + step) ((c :: cs).get? (step - 1))
          (List.drop step (c :: cs))
      else some p
    | none => apiScanAux line api needsParen fuel (p + 1) (some c) cs

/-- First accepted (not inside a string literal) match of an API pattern in a
line. -/
def apiScan (line : String) (api : String) (needsParen : Bool) : Option Nat :=
  apiScanAux line api needsParen line.data.length 0 none line.data

/-- The platform API name tables, in source (dict) order. -/
def platformApiTable : List (String × List String) :=
  [("win32",
    ["win32api", "win32con", "win32file", "win32gui",
     "win32process", "win32service", "win32security",
     "CreateFile", "ReadFile", "WriteFile", "CloseHandle",
     "GetModuleHandle", "GetProcAddress", "LoadLibrary"]),
   ("unix",
    ["fork", "exec", "pthread_", "sigaction", "signal",
     "fcntl", "ioctl", "unlink", "link", "symlink"]),
   ("macos",
    ["Cocoa", "NSApplication", "NSWindow", "AppKit",
     "CoreFoundation", "CFBundle", "CFString"])]

/-- Suggestion text of the platform-API findings. -/
def platformApiSuggestion : String :=
  "Use cross-platform alternatives or add platform-specific guards (#ifdef, if platform.system(), etc.)"

/-- One (platform, api) entry of `_check_platform_specific_apis` on one
line.  Python `unlink` is skipped up front; Python `exec` matches are all
skipped inside the match loop, so that entry never emits anything either. -/
def checkOneApi (language : String) (hasSink : Bool) (i : Nat) (line : String)
    (platform api : String) : List Issue × List Candidate :=
  if language == "python" && api == "unlink" then ([], [])
  else if language == "python" && api == "exec" then ([], [])
  else
    let needsParen := api.data.getLast? != some '_'
    match apiScan line api needsParen with
    | none => ([], [])
    | some p =>
      if api == "exec" && (language == "c" || language == "cpp") && hasSink then
        ([], [{ severity := .ERROR, line_number := i, column := p,
                message := "Platform-specific API detected: " ++ api ++ " (" ++ platform ++ ")",
                code := strStrip line,
                suggestion := platformApiSuggestion,
                category := "PLATFORM_API",
                context_type := "exec_call" }])
      else
        ([{ severity := .ERROR, line_number := i, column := p,
            message := "Platform-specific API detected: " ++ api ++ " (" ++ platform ++ ")",
            code := strStrip line,
            suggestion := platformApiSuggestion,
            category := "PLATFORM_API" }], [])

/-- One line of `_check_platform_specific_apis`. -/
def checkPlatformApisLine (language : String) (hasSink : Bool) (i : Nat)
    (line : String) : List Issue × List Candidate :=
  if is_comment line then ([], [])
  else
    (platformApiTable.map fun pa =>
      (pa.2.map fun api => checkOneApi language hasSink i line pa.1 api).foldr
        (fun a b => (a.1 ++ b.1, a.2 ++ b.2)) ([], [])).foldr
      (fun a b => (a.1 ++ b.1, a.2 ++ b.2)) ([], [])

/-- The platform library lists of `_check_library_imports` (languages absent
from the dict default to the empty list). -/
def platformLibs (language : String) : List String :=
  if language == "python" then
    ["win32api", "win32con", "win32file", "win32gui", "pyobjc", "Cocoa", "AppKit"]
  else if language == "cpp" || language == "c" then
    ["<windows.h>", "<winsock.h>", "<winsock2.h>",
     "<sys/socket.h>", "<unistd.h>", "<pthread.h>",
     "<Cocoa/Cocoa.h>", "<AppKit/AppKit.h>"]
  else []

/-- The fixed-list part of `_check_library_imports` on one line: the first
library found outside a string literal is reported. -/
def checkLibsListLine (language : String) (i : Nat) (line : String) : List Issue :=
  match (platformLibs language).findSome? (fun lib =>
      match strFind line lib with
      | some idx =>
        if !position_inside_string_literal line idx then some (lib, idx) else none
      | none => none) with
  | some (lib, idx) =>
    [{ severity := .ERROR, line_number := i, column := idx,
       message := "Platform-specific library import: " ++ lib,
       code := strStrip line,
       suggestion := "Use cross-platform libraries or add platform guards",
       category := "LIBRARY_IMPORT" }]
  | none => []

/-- Match the `#include <header>` regex at the head of `cs`, returning the
header text. -/
def matchIncludeAt (cs : List Char) (_prev : Option Char) : Option String :=
  if startsWithList cs "#include".data then
    let r := cs.drop 8
    let (_, r2) := spanLen pySpace r
    match r2 with
    | '<' :: r3 =>
      let (n, r4) := spanLen (fun ch => ch != '>') r3
      if 1 ≤ n && !r4.isEmpty then some ⟨r3.take n⟩ else none
    | _ => none
  else none

/-- The C/C++ include classification of `_check_library_imports` on one
line. -/
def checkCppIncludeLine (i : Nat) (line : String) : List Issue :=
  match searchPos matchIncludeAt line.data with
  | some (p, header) =>
    if position_inside_string_literal line p then []
    else
      let h := strStrip header
      if strStartsWith h "linux/" then
        [{ severity := .WARNING, line_number := i, column := p,
           message := "Linux kernel / OS-specific include",
           code := strStrip line,
           suggestion := "Add platform guards or use portable abstractions for cross-OS compatibility",
           category := "LIBRARY_IMPORT" }]
      else if strStartsWith h "wayland-" || strStartsWith h "wayland/" then
        [{ severity := .WARNING, line_number := i, column := p,
           message := "Wayland-specific include; not available on X11-only or other display servers",
           code := strStrip line,
           suggestion := "Use conditional compilation or abstraction for X11/Wayland portability",
           category := "LIBRARY_IMPORT" }]
      else if strStartsWith h "X11/" then
        [{ severity := .WARNING, line_number := i, column := p,
           message := "X11-specific include; not available on Wayland-only systems",
           code := strStrip line,
           suggestion := "Consider X11/Wayland portability or abstraction layer",
           category := "LIBRARY_IMPORT" }]
      else if strStartsWith h "xcb/" then
        [{ severity := .WARNING, line_number := i, column := p,
           message := "X11 XCB include; not available on Wayland-only systems",
           code := strStrip line,
           suggestion := "Consider X11/Wayland portability or abstraction layer",
           category := "LIBRARY_IMPORT" }]
      else []
  | none => []

/-- Rust identifier class `[a-zA-Z0-9_]`. -/
def rustIdentChar (c : Char) : Bool := asciiAlpha c || asciiDigit c || c == '_'

/-- Match the Rust `use` regex at the head of `cs` (word boundary via
`prev`), returning the crate name. -/
def matchRustUseAt (cs : List Char) (prev : Option Char) : Option String :=
  let boundary := match prev with
    | none => true
    | some pc => !wordChar pc
  if boundary && startsWithList cs "use".data then
    let (w, r) := spanLen pySpace (cs.drop 3)
    if w == 0 then none
    else
      let (n, r2) := spanLen rustIdentChar r
      if n == 0 then none
      else if startsWithList r2 "::".data || startsWithList r2 ";".data then
        some ⟨r.take n⟩
      else none
  else none

/-- Match the Rust `extern crate` regex at the head of `cs`, returning the
crate name. -/
def matchRustExternAt (cs : List Char) (prev : Option Char) : Option String :=
  let boundary := match prev with
    | none => true
    | some pc => !wordChar pc
  if boundary && startsWithList cs "extern".data then
    let (w1, r1) := spanLen pySpace (cs.drop 6)
    if w1 == 0 then none
    else if startsWithList r1 "crate".data then
      let (w2, r2) := spanLen pySpace (r1.drop 5)
      if w2 == 0 then none
      else
        let (n, r3) := spanLen rustIdentChar r2
        if n == 0 then none
        else
          let (_, r4) := spanLen pySpace r3
          if startsWithList r4 ";".data then some ⟨r2.take n⟩ else none
    else none
  else none

/-- Is a crate name in the OS-associated set of the `use` branch? -/
def rustUseCrateFlagged (crate : String) : Bool :=
  crate == "winapi" || crate == "windows_sys" || crate == "libc" || crate == "nix" ||
  strStartsWith crate "linux_"

/-- Is a crate name in the OS-associated set of the `extern crate` branch? -/
def rustExternCrateFlagged (crate : String) : Bool :=
  crate == "winapi" || crate == "libc" || crate == "nix" || strStartsWith crate "linux_"

/-- The Rust branch of `_check_library_imports` on one line. -/
def checkRustImportsLine (i : Nat) (line : String) : List Issue :=
  (match searchPos matchRustUseAt line.data with
   | some (p, crate) =>
     if !position_inside_string_literal line p && rustUseCrateFlagged crate then
       [{ severity := .WARNING, line_number := i, column := p,
          message := "OS-associated crate: " ++ crate,
          code := strStrip line,
          suggestion := "Add cfg(target_os) guards or document target platforms for cross-platform compatibility",
          category := "LIBRARY_IMPORT" }]
     else []
   | none => []) ++
  (match searchPos matchRustExternAt line.data with
   | some (p, crate) =>
     if !position_inside_string_literal line p && rustExternCrateFlagged crate then
       [{ severity := .WARNING, line_number := i, column := p,
          message := "OS-associated crate: " ++ crate,
          code := strStrip line,
          suggestion := "Add cfg(target_os) guards or document target platforms for cross-platform compatibility",
          category := "LIBRARY_IMPORT" }]
     else []
   | none => [])

/-- Match `\busing\s+NAME\s*;` at the head of `cs`. -/
def matchUsingAt (name : String) (cs : List Char) (prev : Option Char) : Option Unit :=
  let boundary := match prev with
    | none => true
    | some pc => !wordChar pc
  if boundary && startsWithList cs "using".data then
    let (w, r) := spanLen pySpace (cs.drop 5)
    if w == 0 then none
    else if startsWithList r name.data then
      let (_, r2) := spanLen pySpace (r.drop name.length)
      if startsWithList r2 ";".data then some () else none
    else none
  else none

/-- Match `DllImport\s*\(\s*["quote][^quote]*LIB` at the head of `cs`. -/
def matchDllImportAt (lib : String) (cs : List Char) (_prev : Option Char) : Option Unit :=
  if startsWithList cs "DllImport".data then
    let (_, r1) := spanLen pySpace (cs.drop 9)
    match r1 with
    | '(' :: r2 =>
      let (_, r3) := spanLen pySpace r2
      match r3 with
      | q :: r4 =>
        if isQuote q && containsSub (r4.takeWhile (fun ch => !isQuote ch)) lib.data then
          some ()
        else none
      | [] => none
    | _ => none
  else none

/-- The C# pattern table of `_check_library_imports`. -/
def csharpImportTable : List ((List Char → Option Char → Option Unit) × String) :=
  [(matchUsingAt "Microsoft.Win32", "Windows-specific namespace: Microsoft.Win32"),
   (matchUsingAt "Mono.Unix", "Mono/Unix-specific namespace"),
   (matchUsingAt "Mono.Posix", "Mono/Unix-specific namespace"),
   (matchDllImportAt "kernel32", "Windows-specific DllImport (kernel32)"),
   (matchDllImportAt "ntdll", "Windows-specific DllImport (ntdll)")]

/-- The C# branch of `_check_library_imports` on one line: the first pattern
matching outside a string literal is reported. -/
def checkCsharpImportsLine (i : Nat) (line : String) : List Issue :=
  match csharpImportTable.findSome? (fun pm =>
      match searchPos pm.1 line.data with
      | some (p, _) =>
        if !position_inside_string_literal line p then some (p, pm.2) else none
      | none => none) with
  | some (p, msg) =>
    [{ severity := .WARNING, line_number := i, column := p,
       message := msg,
       code := strStrip line,
       suggestion := "Use cross-platform APIs or RuntimeInformation.IsOSPlatform guards",
       category := "LIBRARY_IMPORT" }]
  | none => []

/-- Match the Go `import ["]syscall["]` regex at the head of `cs`. -/
def matchGoSyscallAt (cs : List Char) (_prev : Option Char) : Option Unit :=
  if startsWithList cs "import".data then
    let (w1, r1) := spanLen pySpace (cs.drop 6)
    if w1 == 0 then none
    else
      let quoted (r : List Char) : Bool :=
        match r with
        | q :: rest =>
          isQuote q && startsWithList rest "syscall".data &&
            (match rest.drop 7 with
             | q2 :: _ => isQuote q2
             | [] => false)
        | [] => false
      if quoted r1 then some ()
      else
        let (n, r2) := spanLen rustIdentChar r1
        let (w2, r3) := spanLen pySpace r2
        if n ≥ 0 && w2 ≥ 1 && quoted r3 then some () else none
  else none

/-- Match the Go `golang.org/x/sys` regex at the head of `cs`; the reported
column is the start of the capture group (one past the quote). -/
def matchGoSysAt (cs : List Char) (_prev : Option Char) : Option Unit :=
  match cs with
  | q :: rest =>
    if isQuote q && startsWithList rest "golang.org/x/sys/".data then
      let tail := rest.drop 17
      if ["windows", "unix", "plan9"].any (fun alt => startsWithList tail alt.data) then
        let altLen :=
          if startsWithList tail "windows".data then 7
          else if startsWithList tail "unix".data then 4
          else 5
        let r2 := tail.drop altLen
        let (n, r3) := spanLen (fun ch => !isQuote ch) r2
        match r3 with
        | q2 :: _ => if isQuote q2 && n ≥ 0 then some () else none
        | [] => none
      else none
    else none
  | [] => none

/-- The Go branch of `_check_library_imports` on one line. -/
def checkGoImportsLine (i : Nat) (line : String) : List Issue :=
  (match searchPos matchGoSyscallAt line.data with
   | some (p, _) =>
     [{ severity := .WARNING, line_number := i, column := p,
        message := "Platform-specific package: syscall",
        code := strStrip line,
        suggestion := "Use build tags or runtime.GOOS guards for cross-platform compatibility",
        category := "LIBRARY_IMPORT" }]
   | none => []) ++
  (match searchPos matchGoSysAt line.data with
   | some (p, _) =>
     [{ severity := .WARNING, line_number := i, column := p + 1,
        message := "Platform-specific package: golang.org/x/sys",
        code := strStrip line,
        suggestion := "Use build tags or runtime.GOOS guards for cross-platform compatibility",
        category := "LIBRARY_IMPORT" }]
   | none => [])

/-- One line of `_check_library_imports`, combining the per-language
branches in source order. -/
def checkLibraryImportsLine (language : String) (i : Nat) (line : String) : List Issue :=
  if is_comment line then []
  else
    checkLibsListLine language i line ++
    (if language == "c" || language == "cpp" then checkCppIncludeLine i line else []) ++
    (if language == "rust" then checkRustImportsLine i line else []) ++
    (if language == "csharp" then checkCsharpImportsLine i line else []) ++
    (if language == "go" then checkGoImportsLine i line else [])

/-- The threading patterns of `_check_threading_apis`. -/
def threadingPatternTable : List (String × String) :=
  [("pthread_", "Unix-specific pthread API"),
   ("CreateThread", "Windows-specific thread API"),
   ("_beginthread", "Windows-specific thread API")]

/-- One line of `_check_threading_apis`: the first pattern whose first
occurrence is outside a string literal is reported. -/
def checkThreadingApisLine (i : Nat) (line : String) : List Issue :=
  if is_comment line then []
  else
    match threadingPatternTable.findSome? (fun pd =>
        match strFind line pd.1 with
        | some idx =>
          if !position_inside_string_literal line idx then some (idx, pd.2) else none
        | none => none) with
    | some (idx, desc) =>
      [{ severity := .ERROR, line_number := i, column := idx,
         message := desc ++ " detected",
         code := strStrip line,
         suggestion := "Use std::thread (C++11+), threading module (Python), or cross-platform threading libraries",
         category := "THREADING" }]
    | none => []

/-- One line of `_check_network_code` (no comment exemption in source). -/
def checkNetworkCodeLine (i : Nat) (line : String) : List Issue :=
  match strFind line "WSAStartup" with
  | some idx =>
    if !position_inside_string_literal line idx then
      [{ severity := .ERROR, line_number := i, column := idx,
         message := "Windows-specific socket initialization (WSAStartup) detected",
         code := strStrip line,
         suggestion := "Use cross-platform socket APIs (BSD sockets work on all platforms)",
         category := "NETWORK" }]
    else []
  | none => []

/-- The GUI framework lists of `_check_gui_code`, in source order. -/
def guiFrameworkTable : List String :=
  ["win32gui", "MFC", "WPF", "WinForms", "Cocoa", "AppKit", "NSApplication"]

/-- One line of `_check_gui_code` (every framework found outside a string
literal is reported; there is no break in the source loop). -/
def checkGuiCodeLine (i : Nat) (line : String) : List Issue :=
  if is_comment line then []
  else
    guiFrameworkTable.filterMap (fun fw =>
      match strFind line fw with
      | some idx =>
        if !position_inside_string_literal line idx then
          some { severity := .ERROR, line_number := i, column := idx,
                 message := "Platform-specific GUI framework: " ++ fw,
                 code := strStrip line,
                 suggestion := "Use cross-platform GUI frameworks (Qt, wxWidgets, Tkinter, etc.)",
                 category := "GUI" }
        else none
      | none => none)

/-- `APIChecker.check`: the five sub-checks in source order. -/
def apiCheckerCheck (language : String) (hasSink : Bool) (lines : List String) :
    List Issue × List Candidate :=
  let apis := gatherLines (checkPlatformApisLine language hasSink) lines
  let libs := gatherIssueLines (checkLibraryImportsLine language) lines
  let thr := gatherIssueLines checkThreadingApisLine lines
  let net := gatherIssueLines checkNetworkCodeLine lines
  let gui := gatherIssueLines checkGuiCodeLine lines
  (apis.1 ++ libs ++ thr ++ net ++ gui, apis.2)

/-! ### `checkers/file_checker.py` -/

/-- Match `open\([^)]+\)` at the head of `cs`. -/
def matchOpenCallAt (cs : List Char) (_prev : Option Char) : Option Unit :=
  if startsWithList cs "open(".data then
    let r := cs.drop 5
    let (n, r2) := spanLen (fun ch => ch != ')') r
    if 1 ≤ n && !r2.isEmpty then some () else none
  else none

/-- One line of `_check_file_encoding` (nested conditions exactly as in
source: a literal `mode=` substring is required, the character `b` anywhere
in the line suppresses the warning, and `r`/`w`/`a` are sought anywhere in
the line; comment lines are not exempted). -/
def checkFileEncodingLine (language : String) (i : Nat) (line : String) : List Issue :=
  if language == "python" then
    if (searchPos matchOpenCallAt line.data).isSome then
      if !strContains line "encoding=" && strContains line "mode=" && !strHasChar line 'b' then
        if strHasChar line 'r' || strHasChar line 'w' || strHasChar line 'a' then
          [{ severity := .WARNING, line_number := i, column := 0,
             message := "File open without explicit encoding",
             code := strStrip line,
             suggestion := "Specify encoding=" ++ sqStr ++ "utf-8" ++ sqStr ++
               " for text files to ensure cross-platform compatibility",
             category := "FILE_ENCODING" }]
        else []
      else []
    else []
  else []

/-- One line of `_check_file_locking`. -/
def checkFileLockingLine (i : Nat) (line : String) : List Issue :=
  if (strContains line "flock" || strContains line "fcntl") && !is_comment line then
    [{ severity := .WARNING, line_number := i, column := 0,
       message := "Unix-specific file locking API detected",
       code := strStrip line,
       suggestion := "Use cross-platform file locking or platform-specific guards",
       category := "FILE_LOCKING" }]
  else []

/-- Match the platform-specific-encoding regex at the head of `cs`
(case-insensitive). -/
def matchBadEncodingAt (cs : List Char) (_prev : Option Char) : Option Unit :=
  if startsWithCI cs "encoding".data then
    let (_, r1) := spanLen pySpace (cs.drop 8)
    match r1 with
    | '=' :: r2 =>
      let (_, r3) := spanLen pySpace r2
      match r3 with
      | q :: r4 =>
        if isQuote q then
          ["windows-1252", "cp1252", "latin1"].findSome? fun enc =>
            if startsWithCI r4 enc.data then
              match r4.drop enc.length with
              | q2 :: _ => if isQuote q2 then some () else none
              | [] => none
            else none
        else none
      | [] => none
    | _ => none
  else none

/-- One line of `_check_encoding_issues`. -/
def checkEncodingIssuesLine (i : Nat) (line : String) : List Issue :=
  if (searchPos matchBadEncodingAt line.data).isSome then
    [{ severity := .WARNING, line_number := i, column := 0,
       message := "Platform-specific encoding detected",
       code := strStrip line,
       suggestion := "Use UTF-8 encoding for maximum cross-platform compatibility",
       category := "ENCODING" }]
  else []

/-- `FileChecker.check`: the three sub-checks in source order. -/
def fileCheckerCheck (language : String) (lines : List String) : List Issue :=
  gatherIssueLines (checkFileEncodingLine language) lines ++
  gatherIssueLines checkFileLockingLine lines ++
  gatherIssueLines checkEncodingIssuesLine lines

/-! ### `checkers/env_checker.py` -/

/-- Non-overlapping matches of the `%VAR%` pattern (uppercase letters and
underscores between two percent signs), with their positions; fuel-based
structural recursion (callers pass the list length, which always
suffices). -/
def envSyntaxMatchesAux : Nat → Nat → List Char → List (Nat × String)
  | 0, _, _ => []
  | _ + 1, _, [] => []
  | fuel + 1, p, c :: cs =>
    if c == '%' then
      let (n, r) := spanLen (fun ch => asciiUpper ch || ch == '_') cs
      match r with
      | '%' :: _ =>
        if 1 ≤ n then
          (p, ⟨'%' :: (cs.take n ++ ['%'])⟩) ::
            envSyntaxMatchesAux fuel (p + n + 2) (List.drop (n + 1) cs)
        else envSyntaxMatchesAux fuel (p + 1) cs
      | _ => envSyntaxMatchesAux fuel (p + 1) cs
    else envSyntaxMatchesAux fuel (p + 1) cs

/-- Non-overlapping `%VAR%` matches over a whole list. -/
def envSyntaxMatches (p : Nat) (cs : List Char) : List (Nat × String) :=
  envSyntaxMatchesAux (cs.length + 1) p cs

/-- One line of `_check_windows_env_syntax`. -/
def checkWindowsEnvSyntaxLine (hasSink : Bool) (i : Nat) (line : String) :
    List Issue × List Candidate :=
  if is_comment line then ([], [])
  else
    ((envSyntaxMatches 0 line.data).map fun pl =>
      if hasSink then
        (([] : List Issue),
         [{ severity := .ERROR, line_number := i, column := pl.1,
            message := "Windows-specific environment variable syntax (%VAR%) detected",
            code := strStrip line,
            suggestion := "Use os.getenv() (Python), getenv() (C++), or process.env (Node.js)",
            category := "ENV_VAR",
            context_type := "string_env_syntax",
            context_data := { literal := some pl.2, columnData := some pl.1 } }])
      else
        ([{ severity := .ERROR, line_number := i, column := pl.1,
            message := "Windows-specific environment variable syntax (%VAR%) detected",
            code := strStrip line,
            suggestion := "Use os.getenv() (Python), getenv() (C++), or process.env (Node.js)",
            category := "ENV_VAR" }], [])).foldr
      (fun a b => (a.1 ++ b.1, a.2 ++ b.2)) ([], [])

/-- The platform-variable table of `_check_platform_specific_vars`, in
source (dict) order. -/
def platformVarTable : List (String × String) :=
  [("USERPROFILE", "Use HOME on Unix/macOS"),
   ("APPDATA", "Use XDG_CONFIG_HOME on Linux, ~/Library on macOS"),
   ("TEMP", "Use TMPDIR on Unix/macOS"),
   ("TMP", "Use TMPDIR on Unix/macOS")]

/-- Match a whole word `w` at the head of `cs` (word boundaries on both
sides). -/
def matchWholeWordAt (w : String) (cs : List Char) (prev : Option Char) : Option Unit :=
  let boundary := match prev with
    | none => true
    | some pc => !wordChar pc
  if boundary && startsWithList cs w.data then
    match cs.drop w.length with
    | d :: _ => if !wordChar d then some () else none
    | [] => some ()
  else none

/-- One line of `_check_platform_specific_vars` (no break: every variable of
the table found on the line is reported). -/
def checkPlatformVarsLine (hasSink : Bool) (i : Nat) (line : String) :
    List Issue × List Candidate :=
  if is_comment line then ([], [])
  else
    (platformVarTable.map fun vs =>
      (match searchPos (matchWholeWordAt vs.1) line.data with
      | some (p, _) =>
        if hasSink then
          (([] : List Issue),
           ([{ severity := .WARNING, line_number := i, column := p,
               message := "Windows-specific environment variable: " ++ vs.1,
               code := strStrip line,
               suggestion := vs.2,
               category := "ENV_VAR",
               context_type := "string_platform_var",
               context_data := { literal := some vs.1, columnData := some p } }] : List Candidate))
        else
          ([{ severity := .WARNING, line_number := i, column := p,
              message := "Windows-specific environment variable: " ++ vs.1,
              code := strStrip line,
              suggestion := vs.2,
              category := "ENV_VAR" }], [])
      | none => (([], []) : List Issue × List Candidate))).foldr
      (fun a b => (a.1 ++ b.1, a.2 ++ b.2)) ([], [])

/-- `EnvChecker.check`: the two sub-checks in source order. -/
def envCheckerCheck (hasSink : Bool) (lines : List String) :
    List Issue × List Candidate :=
  let a := gatherLines (checkWindowsEnvSyntaxLine hasSink) lines
  let b := gatherLines (checkPlatformVarsLine hasSink) lines
  (a.1 ++ b.1, a.2 ++ b.2)

/-! ### `checkers/system_checker.py` -/

/-- The system-call list, in source order. -/
def systemCallTable : List String :=
  ["system(", "popen(", "exec(", "execv(", "execvp(",
   "CreateProcess", "ShellExecute", "fork()", "vfork()"]

/-- The quote- and comment-aware scan of `_check_system_calls` over one
line: `j` is the current position, `prev` the previous character, `inQ` the
open-quote state.  Fuel-based structural recursion (callers pass the line
length, which always suffices; `max len 1` is inert since every call token
is nonempty). -/
def sysScan (language : String) (hasSink : Bool) (i : Nat) (line : String) :
    Nat → Nat → Option Char → Option Char → List Char → List Issue × List Candidate
  | 0, _, _, _, _ => ([], [])
  | _ + 1, _, _, _, [] => ([], [])
  | fuel + 1, j, prev, none, c :: cs =>
    if c == '#' then ([], [])
    else if c == '/' && cs.head? == some '/' then ([], [])
    else if isQuote c && (j == 0 || prev != some bsl) then
      sysScan language hasSink i line fuel (j + 1) (some c) (some c) cs
    else
      match systemCallTable.find? (fun call => startsWithList (c :: cs) call.data) with
      | some call =>
        let finding : List Issue × List Candidate :=
          if call == "exec(" && (language == "c" || language == "cpp") && hasSink then
            ([], [{ severity := .WARNING, line_number := i, column := j,
                    message := "System call detected: " ++ call,
                    code := strStrip line,
                    suggestion := "Ensure command syntax is compatible across platforms or use platform-specific guards",
                    category := "SYSTEM_CALL",
                    context_type := "exec_call" }])
          else
            ([{ severity := .WARNING, line_number := i, column := j,
                message := "System call detected: " ++ call,
                code := strStrip line,
                suggestion := "Ensure command syntax is compatible across platforms or use platform-specific guards",
                category := "SYSTEM_CALL" }], [])
        let step := max call.length 1
        let rest := sysScan language hasSink i line fuel (j + step)
          ((c :: cs).get? (step - 1)) none (List.drop step (c :: cs))
        (finding.1 ++ rest.1, finding.2 ++ rest.2)
      | none => sysScan language hasSink i line fuel (j + 1) (some c) none cs
  | fuel + 1, j, prev, some q, c :: cs =>
    if c == q && (j == 0 || prev != some bsl) then
      sysScan language hasSink i line fuel (j + 1) (some c) none cs
    else
      sysScan language hasSink i line fuel (j + 1) (some c) (some q) cs

/-- `SystemChecker.check`. -/
def systemCheckerCheck (language : String) (hasSink : Bool) (lines : List String) :
    List Issue × List Candidate :=
  gatherLines (fun i line =>
    if is_comment line then ([], [])
    else sysScan language hasSink i line line.data.length 0 none none line.data) lines

/-! ### `checkers/python_checker.py` -/

/-- One line of `_check_os_name_usage`. -/
def checkOsNameLine (i : Nat) (line : String) : List Issue :=
  if strContains line "os.name" && (strContains line "nt" || strContains line "posix") then
    [{ severity := .INFO, line_number := i, column := 0,
       message := "Direct os.name comparison detected",
       code := strStrip line,
       suggestion := "Consider using platform.system() for more detailed platform detection",
       category := "PLATFORM_DETECTION" }]
  else []

/-- Alphanumeric-or-underscore class of the path-literal pattern. -/
def alnumU (c : Char) : Bool := asciiAlpha c || asciiDigit c || c == '_'

/-- Does the interior of a literal contain the separator triple of
`path_pattern` (a word character, a slash or backslash, then a word
character or slash or backslash)? -/
def tripleInside : List Char → Bool
  | a :: b :: c :: rest =>
    (alnumU a && (b == '/' || b == bsl) && (alnumU c || c == '/' || c == bsl)) ||
    tripleInside (b :: c :: rest)
  | _ => false

/-- Leftmost match of `path_pattern`: a quote, non-quote interior containing
the separator triple, and the next quote; returns the match position and the
matched text (quotes included). -/
def pathLiteralSearch : Nat → List Char → Option (Nat × String)
  | _, [] => none
  | p, c :: cs =>
    if isQuote c then
      let (n, r) := spanLen (fun ch => !isQuote ch) cs
      match r with
      | q2 :: _ =>
        if tripleInside (cs.take n) then some (p, ⟨c :: (cs.take n ++ [q2])⟩)
        else pathLiteralSearch (p + 1) cs
      | [] => none
    else pathLiteralSearch (p + 1) cs

/-- Search for the `if`-condition pattern (word-bounded `if` followed by
whitespace). -/
def matchIfAt (cs : List Char) (prev : Option Char) : Option Unit :=
  let boundary := match prev with
    | none => true
    | some pc => !wordChar pc
  if boundary && startsWithList cs "if".data then
    let (w, _) := spanLen pySpace (cs.drop 2)
    if 1 ≤ w then some () else none
  else none

/-- One line of `_check_pathlib_usage`. -/
def checkPathlibUsageLine (hasSink : Bool) (i : Nat) (line : String) :
    List Issue × List Candidate :=
  if strContains line "\\n" || strContains line "\\t" ||
     strContains line ("f" ++ dqStr) || strContains line ("f" ++ sqStr) then ([], [])
  else if strContains line "os.path.join" || strContains line "pathlib" ||
          strContains line "Path(" then ([], [])
  else
    match pathLiteralSearch 0 line.data with
    | none => ([], [])
    | some (p, matched) =>
      let literal : String := ⟨stripQuotes (pyStrip matched.data)⟩
      if !looks_like_file_path literal then ([], [])
      else if is_likely_url_or_display line matched then ([], [])
      else if is_file_path_context line "python" then
        ([{ severity := .WARNING, line_number := i, column := p,
            message := "String path concatenation detected",
            code := strStrip line,
            suggestion := "Use pathlib.Path or os.path.join() for cross-platform path handling",
            category := "PATH_HANDLING" }], [])
      else if hasSink then
        match searchAssign line.data with
        | some (var, _) =>
          ([], [{ severity := .WARNING, line_number := i, column := p,
                  message := "String path concatenation detected",
                  code := strStrip line,
                  suggestion := "Use pathlib.Path or os.path.join() for cross-platform path handling",
                  category := "PATH_HANDLING",
                  context_type := "variable_path",
                  context_data := { var := some var } }])
        | none =>
          if (searchPos matchIfAt line.data).isSome then
            ([], [{ severity := .WARNING, line_number := i, column := p,
                    message := "String path concatenation detected",
                    code := strStrip line,
                    suggestion := "Use pathlib.Path or os.path.join() for cross-platform path handling",
                    category := "PATH_HANDLING",
                    context_type := "string_in_condition",
                    context_data := { columnData := some p } }])
          else ([], [])
      else ([], [])

/-- One line of `_check_variable_path_usage` (Python checker). -/
def checkVariablePathUsageLine (i : Nat) (line : String) : List Issue :=
  if !is_file_path_context line "python" then []
  else if strContains line "Path(" || strContains line "pathlib." then []
  else if is_likely_url_or_display line then []
  else if !has_variable_path_argument line "python" then []
  else
    [{ severity := .WARNING, line_number := i, column := 0,
       message := "Variable used as file path; ensure it is built with pathlib.Path or os.path.join()",
       code := strStrip line,
       suggestion := "Use pathlib.Path or os.path.join() for cross-platform path handling",
       category := "PATH_HANDLING" }]

/-- `PythonChecker.check`: the three sub-checks in source order. -/
def pythonCheckerCheck (hasSink : Bool) (lines : List String) :
    List Issue × List Candidate :=
  let osn := gatherIssueLines checkOsNameLine lines
  let pl := gatherLines (checkPathlibUsageLine hasSink) lines
  let vp := gatherIssueLines checkVariablePathUsageLine lines
  (osn ++ pl.1 ++ vp, pl.2)

/-! ### `checkers/cpp_checker.py` -/

/-- Generic `re.finditer` scan that skips matches inside string literals and
returns the first accepted match position (like the API scan, for matchers
that report their match length). -/
def scanSkipAux (line : String) (matchAt : List Char → Option Char → Option Nat) :
    Nat → Nat → Option Char → List Char → Option Nat
  | 0, _, _, _ => none
  | _ + 1, _, _, [] => none
  | fuel + 1, p, prev, c :: cs =>
    match matchAt (c :: cs) prev with
    | some len =>
      if position_inside_string_literal line p then
        let step := max len 1
        scanSkipAux line matchAt fuel (p + step) ((c :: cs).get? (step - 1))
          (List.drop step (c :: cs))
      else some p
    | none => scanSkipAux line matchAt fuel (p + 1) (some c) cs

/-- Skip-scan over a whole line. -/
def scanSkip (line : String) (matchAt : List Char → Option Char → Option Nat) :
    Option Nat :=
  scanSkipAux line matchAt line.data.length 0 none line.data

/-- One line of the C++ `_check_filesystem_usage` (cpp only, no comment
exemption). -/
def checkFilesystemUsageLine (language : String) (i : Nat) (line : String) : List Issue :=
  if language == "cpp" &&
     (strContains line "<filesystem>" || strContains line "std::filesystem") then
    [{ severity := .INFO, line_number := i, column := 0,
       message := "std::filesystem usage detected (requires C++17)",
       code := strStrip line,
       suggestion := "Ensure C++17 is enabled and available on all target platforms",
       category := "CPP_STANDARD" }]
  else []

/-- First whole-word match of one of the alternatives, in order. -/
def matchWordAlts (alts : List String) (cs : List Char) (prev : Option Char) :
    Option Unit :=
  alts.findSome? fun a => matchWholeWordAt a cs prev

/-- One line of `_check_windows_types`. -/
def checkWindowsTypesLine (i : Nat) (line : String) : List Issue :=
  if is_comment line then []
  else
    match searchPos (matchWordAlts ["DWORD", "HANDLE", "LPSTR"]) line.data with
    | some (p, _) =>
      [{ severity := .ERROR, line_number := i, column := p,
         message := "Windows-specific type detected",
         code := strStrip line,
         suggestion := "Use standard C++ types or add platform guards",
         category := "TYPE_DEFINITION" }]
    | none => []

/-- The X11 symbol list shared by the C/C++ checker. -/
def cppX11Symbols : List String :=
  ["XOpenDisplay", "XCloseDisplay", "XCreateWindow",
   "XNextEvent", "XFlush", "XDefaultScreen",
   "xcb_connect", "xcb_disconnect"]

/-- The Wayland symbol list shared by the C/C++ and Rust checkers. -/
def waylandSymbols : List String :=
  ["wl_display_connect", "wl_display_disconnect",
   "wl_registry", "wl_surface", "wl_compositor"]

/-- Report the first symbol of `syms` whose first whole-word match is
outside a string literal (each sub-loop of `_check_display_server_apis`). -/
def firstSymbolIssue (syms : List String) (i : Nat) (line : String)
    (msg sugg : String) : List Issue :=
  match syms.findSome? (fun sym =>
      match searchPos (matchWholeWordAt sym) line.data with
      | some (p, _) =>
        if !position_inside_string_literal line p then some p else none
      | none => none) with
  | some p =>
    [{ severity := .WARNING, line_number := i, column := p,
       message := msg, code := strStrip line, suggestion := sugg,
       category := "DISPLAY_API" }]
  | none => []

/-- One line of the C/C++ `_check_display_server_apis`. -/
def checkCppDisplayServerLine (i : Nat) (line : String) : List Issue :=
  if is_comment line then []
  else
    firstSymbolIssue cppX11Symbols i line
      "X11 API usage; code may not run on Wayland-only or other display servers"
      "Use abstraction or conditional compilation for X11/Wayland portability" ++
    firstSymbolIssue waylandSymbols i line
      "Wayland API usage; code may not run on X11-only systems"
      "Consider X11/Wayland portability or abstraction layer"

/-- `CppChecker.check`. -/
def cppCheckerCheck (language : String) (lines : List String) : List Issue :=
  gatherIssueLines (checkFilesystemUsageLine language) lines ++
  gatherIssueLines checkWindowsTypesLine lines ++
  gatherIssueLines checkCppDisplayServerLine lines

/-! ### `checkers/javascript_checker.py` -/

/-- Match the drive-letter pattern (quote, uppercase letter, colon, slash or
backslash), returning the matched text. -/
def matchDriveAt (cs : List Char) (_prev : Option Char) : Option String :=
  match cs with
  | q :: a :: b :: c :: _ =>
    if isQuote q && asciiUpper a && b == ':' && (c == '/' || c == bsl) then
      some ⟨[q, a, b, c]⟩
    else none
  | _ => none

/-- One line of the JavaScript `_check_hardcoded_paths`. -/
def checkJsHardcodedLine (language : String) (i : Nat) (line : String) : List Issue :=
  match searchPos matchDriveAt line.data with
  | none => []
  | some (_, matched) =>
    if !is_file_path_context line language then []
    else if is_likely_url_or_display line matched then []
    else
      [{ severity := .ERROR, line_number := i, column := 0,
         message := "Hardcoded Windows drive path detected",
         code := strStrip line,
         suggestion := "Use path.join() or path.resolve() with process.platform checks",
         category := "PATH_HANDLING" }]

/-- One line of the JavaScript `_check_variable_path_usage`. -/
def checkJsVariablePathLine (language : String) (i : Nat) (line : String) : List Issue :=
  if !is_file_path_context line language then []
  else if is_likely_url_or_display line then []
  else if !has_variable_path_argument line language then []
  else
    [{ severity := .WARNING, line_number := i, column := 0,
       message := "Variable used as file path; ensure it is built with path.join() or path.resolve()",
       code := strStrip line,
       suggestion := "Use path.join() or path.resolve() with process.platform checks",
       category := "PATH_HANDLING" }]

/-- `JavaScriptChecker.check`: hardcoded paths first, then variable paths. -/
def jsCheckerCheck (language : String) (lines : List String) : List Issue :=
  gatherIssueLines (checkJsHardcodedLine language) lines ++
  gatherIssueLines (checkJsVariablePathLine language) lines

/-! ### `checkers/java_checker.py` -/

/-- Match `\bnew\s+File\s*\(` at the head of `cs`, returning the match
length. -/
def matchNewFileAt (cs : List Char) (prev : Option Char) : Option Nat :=
  let boundary := match prev with
    | none => true
    | some pc => !wordChar pc
  if boundary && startsWithList cs "new".data then
    let (w, r) := spanLen pySpace (cs.drop 3)
    if w == 0 then none
    else if startsWithList r "File".data then
      let (w2, r2) := spanLen pySpace (r.drop 4)
      match r2 with
      | '(' :: _ => some (3 + w + 4 + w2 + 1)
      | _ => none
    else none
  else none

/-- `re.finditer` of the Java `path_literal` pattern: a quote, a non-quote
interior containing a slash or backslash, and the closing quote; yields
(start, whole match, interior) triples. -/
def javaLiteralMatchesAux : Nat → Nat → List Char → List (Nat × String × String)
  | 0, _, _ => []
  | _ + 1, _, [] => []
  | fuel + 1, p, c :: cs =>
    if isQuote c then
      let (n, r) := spanLen (fun ch => !isQuote ch) cs
      match r with
      | q2 :: _ =>
        if (cs.take n).contains '/' || (cs.take n).contains bsl then
          (p, ⟨c :: (cs.take n ++ [q2])⟩, (⟨cs.take n⟩ : String)) ::
            javaLiteralMatchesAux fuel (p + n + 2) (List.drop (n + 1) cs)
        else javaLiteralMatchesAux fuel (p + 1) cs
      | [] => []
    else javaLiteralMatchesAux fuel (p + 1) cs

/-- Java literal matches over a whole list (fuel = length, which always
suffices). -/
def javaLiteralMatches (p : Nat) (cs : List Char) : List (Nat × String × String) :=
  javaLiteralMatchesAux (cs.length + 1) p cs

/-- The literal sub-loop of the Java `_check_path_handling`: first
acceptable path literal on the line is reported. -/
def javaFileCtorLiteralIssue (i : Nat) (line : String) : List Issue :=
  match (javaLiteralMatches 0 line.data).findSome? (fun m =>
      let (start, whole, content) := m
      if !looks_like_file_path content && !strContains content "/" &&
         !strContains content "\\" then none
      else if is_likely_url_or_display line whole then none
      else some start) with
  | some start =>
    [{ severity := .WARNING, line_number := i, column := start,
       message := "File path from string literal; use Paths.get() or Path.of() for cross-platform paths",
       code := strStrip line,
       suggestion := "Use java.nio.file.Paths.get() or Path.of() and avoid hardcoded separators",
       category := "PATH_HANDLING" }]
  | none => []

/-- Match one alternative of the Java `sep_concat` regex at the head of
`cs`. -/
def matchSepConcatAt (cs : List Char) (_prev : Option Char) : Option Unit :=
  let sep (ch : Char) : Bool := ch == '/' || ch == bsl
  let altA : Option Unit :=
    match cs with
    | q1 :: r1 =>
      if isQuote q1 then
        let (n, r2) := spanLen (fun ch => !isQuote ch) r1
        match r2 with
        | q2 :: r3 =>
          if isQuote q2 && n ≥ 0 then
            let (_, r4) := spanLen pySpace r3
            match r4 with
            | '+' :: r5 =>
              let (_, r6) := spanLen pySpace r5
              match r6 with
              | q3 :: r7 =>
                if isQuote q3 then
                  let (_, r8) := spanLen pySpace r7
                  match r8 with
                  | s :: r9 =>
                    if sep s then
                      let (_, r10) := spanLen pySpace r9
                      match r10 with
                      | q4 :: _ => if isQuote q4 then some () else none
                      | [] => none
                    else none
                  | [] => none
                else none
              | [] => none
            | _ => none
          else none
        | [] => none
      else none
    | [] => none
  let altB : Option Unit :=
    match cs with
    | q1 :: r1 =>
      if isQuote q1 then
        let (_, r2) := spanLen pySpace r1
        match r2 with
        | s :: r3 =>
          if sep s then
            let (_, r4) := spanLen pySpace r3
            match r4 with
            | q2 :: r5 =>
              if isQuote q2 then
                let (_, r6) := spanLen pySpace r5
                match r6 with
                | '+' :: _ => some ()
                | _ => none
              else none
            | [] => none
          else none
        | [] => none
      else none
    | [] => none
  let altC : Option Unit :=
    match cs with
    | '+' :: r1 =>
      let (_, r2) := spanLen pySpace r1
      if startsWithList r2 "File.separator".data then
        let (_, r3) := spanLen pySpace (r2.drop 14)
        match r3 with
        | '+' :: _ => some ()
        | _ => none
      else none
    | _ => none
  altA <|> altB <|> altC

/-- One line of the Java `_check_path_handling`. -/
def checkJavaPathHandlingLine (i : Nat) (line : String) : List Issue :=
  if is_comment line then []
  else if strContains line "Paths.get(" || strContains line "Path.of(" then []
  else
    (match scanSkip line matchNewFileAt with
     | some _ => javaFileCtorLiteralIssue i line
     | none => []) ++
    (if strContains line "+" &&
        (strContains line "/" || strContains line "File.separator") &&
        is_file_path_context line "java" then
      match searchPos matchSepConcatAt line.data with
      | some (p, _) =>
        if !position_inside_string_literal line p then
          [{ severity := .WARNING, line_number := i, column := p,
             message := "String concatenation used as path",
             code := strStrip line,
             suggestion := "Use Paths.get() or Path.resolve() with Path segments for cross-platform paths",
             category := "PATH_HANDLING" }]
        else []
      | none => []
    else [])

/-- One line of `_check_file_reader_writer_encoding`. -/
def checkJavaReaderWriterLine (i : Nat) (line : String) : List Issue :=
  if is_comment line then []
  else if strContains line "Charset" || strContains line "StandardCharsets" ||
          strContains line "InputStreamReader" || strContains line "OutputStreamWriter" then []
  else
    match ["new FileReader(", "new FileWriter("].findSome? (fun pat =>
        match strFind line pat with
        | some idx =>
          if !position_inside_string_literal line idx then some idx else none
        | none => none) with
    | some idx =>
      [{ severity := .WARNING, line_number := i, column := idx,
         message := "FileReader/FileWriter use platform default encoding",
         code := strStrip line,
         suggestion := "Use Files.newBufferedReader(path, StandardCharsets.UTF_8) or InputStreamReader with explicit Charset",
         category := "FILE_ENCODING" }]
    | none => []

/-- Match the Java `System.getProperty` platform-property regex at the head
of `cs`, returning the match length. -/
def matchJavaGetPropertyAt (cs : List Char) (_prev : Option Char) : Option Nat :=
  if startsWithList cs "System.getProperty".data then
    let (w1, r1) := spanLen pySpace (cs.drop 18)
    match r1 with
    | '(' :: r2 =>
      let (w2, r3) := spanLen pySpace r2
      match r3 with
      | q :: r4 =>
        if isQuote q then
          ["os.name", "file.separator"].findSome? fun prop =>
            if startsWithList r4 prop.data then
              match r4.drop prop.length with
              | q2 :: _ =>
                if isQuote q2 then
                  some (18 + w1 + 1 + w2 + 1 + prop.length + 1)
                else none
              | [] => none
            else none
        else none
      | [] => none
    | _ => none
  else none

/-- One line of the Java `_check_platform_detection`. -/
def checkJavaPlatformDetectionLine (i : Nat) (line : String) : List Issue :=
  if is_comment line then []
  else
    match scanSkip line matchJavaGetPropertyAt with
    | some p =>
      [{ severity := .INFO, line_number := i, column := p,
         message := "Platform-specific property access; ensure all target platforms are handled",
         code := strStrip line,
         suggestion := "Use File.separator or java.nio.file.Path APIs where possible; document platform assumptions",
         category := "PLATFORM_DETECTION" }]
    | none => []

/-- Match `new\s+ProcessBuilder\s*\(\s*["quote]` at the head of `cs`. -/
def matchProcessBuilderAt (cs : List Char) (_prev : Option Char) : Option Unit :=
  if startsWithList cs "new".data then
    let (w, r) := spanLen pySpace (cs.drop 3)
    if w == 0 then none
    else if startsWithList r "ProcessBuilder".data then
      let (_, r2) := spanLen pySpace (r.drop 14)
      match r2 with
      | '(' :: r3 =>
        let (_, r4) := spanLen pySpace r3
        match r4 with
        | q :: _ => if isQuote q then some () else none
        | [] => none
      | _ => none
    else none
  else none

/-- One line of `_check_process_builder_single_string`. -/
def checkJavaProcessBuilderLine (i : Nat) (line : String) : List Issue :=
  if is_comment line then []
  else
    match searchPos matchProcessBuilderAt line.data with
    | some (p, _) =>
      if !position_inside_string_literal line p then
        [{ severity := .WARNING, line_number := i, column := p,
           message := "ProcessBuilder with single string invokes shell; behavior is platform-specific",
           code := strStrip line,
           suggestion := "Use ProcessBuilder with array of arguments and avoid shell-builtin commands",
           category := "PROCESS_EXEC" }]
      else []
    | none => []

/-- First position of a quoted occurrence of the prefix `pat` (the
`m.start()` of the quoted-prefix regex). -/
def quotedPatternPos (pat : String) (line : String) : Option Nat :=
  (searchPos (fun cs _ =>
    match cs with
    | q :: rest =>
      if isQuote q && startsWithList rest pat.data then some () else none
    | [] => none) line.data).map (·.1)

/-- One line of the Java `_check_hardcoded_platform_paths`. -/
def checkJavaHardcodedLine (i : Nat) (line : String) : List Issue :=
  if is_comment line then []
  else if !is_file_path_context line "java" then []
  else if is_likely_url_or_display line then []
  else
    match hardcodedPathPatternTable.findSome? (fun pd =>
        (quotedPatternPos pd.1 line).map (fun p => (p, pd.2))) with
    | some (p, desc) =>
      [{ severity := .ERROR, line_number := i, column := p,
         message := "Hardcoded " ++ desc ++ " path detected",
         code := strStrip line,
         suggestion := "Use environment variables or Paths.get() with portable segments",
         category := "HARDCODED_PATH" }]
    | none => []

/-- One line of the Java `_check_variable_path_usage`. -/
def checkJavaVariablePathLine (i : Nat) (line : String) : List Issue :=
  if !is_file_path_context line "java" then []
  else if is_likely_url_or_display line then []
  else if !has_variable_path_argument line "java" then []
  else
    [{ severity := .WARNING, line_number := i, column := 0,
       message := "Variable used as file path; ensure it is built with Paths.get() or Path APIs",
       code := strStrip line,
       suggestion := "Use Paths.get() or Path.resolve() for cross-platform paths",
       category := "PATH_HANDLING" }]

/-- `JavaChecker.check`: the six sub-checks in source order. -/
def javaCheckerCheck (lines : List String) : List Issue :=
  gatherIssueLines checkJavaPathHandlingLine lines ++
  gatherIssueLines checkJavaReaderWriterLine lines ++
  gatherIssueLines checkJavaPlatformDetectionLine lines ++
  gatherIssueLines checkJavaProcessBuilderLine lines ++
  gatherIssueLines checkJavaHardcodedLine lines ++
  gatherIssueLines checkJavaVariablePathLine lines

/-! ### `checkers/go_checker.py`, `checkers/rust_checker.py`,
`checkers/csharp_checker.py` (the hardcoded/variable-path blocks of the
three checkers are verbatim copies of each other up to suggestion text) -/

/-- The unix-path pattern table shared by the Go/Rust/C# checkers (the
drive-letter case is handled separately there). -/
def unixPathPatternTable : List (String × String) :=
  [("/home/", "Unix home directory"),
   ("/Users/", "macOS home directory"),
   ("/usr/", "Unix system directory"),
   ("/etc/", "Unix config directory"),
   ("/tmp/", "Unix temp directory"),
   ("/var/", "Unix variable directory")]

/-- First match of the drive pattern with its matched text. -/
def drivePatternSearch (line : String) : Option (Nat × String) :=
  searchPos matchDriveAt line.data

/-- One line of the shared Go/Rust/C# `_check_hardcoded_paths`. -/
def checkGrcHardcodedLine (language : String) (driveSugg unixSugg : String)
    (i : Nat) (line : String) : List Issue :=
  if is_comment line then []
  else if !is_file_path_context line language then []
  else if is_likely_url_or_display line then []
  else
    match drivePatternSearch line with
    | some (p, matched) =>
      if !is_likely_url_or_display line matched then
        [{ severity := .ERROR, line_number := i, column := p,
           message := "Hardcoded Windows drive path detected",
           code := strStrip line,
           suggestion := driveSugg,
           category := "PATH_HANDLING" }]
      else unixPart
    | none => unixPart
where
  unixPart : List Issue :=
    match unixPathPatternTable.findSome? (fun pd =>
        match quotedPatternPos pd.1 line with
        | some p =>
          -- the matched text is quote + prefix; both downstream predicates
          -- strip the quotes first, so the quote kind is immaterial
          let lit : String := ⟨(dqStr ++ pd.1).data⟩
          let litStripped : String := ⟨stripQuotes (dqStr ++ pd.1).data⟩
          if !looks_like_file_path litStripped then none
          else if is_likely_url_or_display line lit then none
          else some (p, pd.2)
        | none => none) with
    | some (p, desc) =>
      [{ severity := .ERROR, line_number := i, column := p,
         message := "Hardcoded " ++ desc ++ " path detected",
         code := strStrip line,
         suggestion := unixSugg,
         category := "HARDCODED_PATH" }]
    | none => []

/-- One line of the shared Go/Rust/C# `_check_variable_path_usage`. -/
def checkGrcVariablePathLine (language : String) (msg sugg : String)
    (i : Nat) (line : String) : List Issue :=
  if !is_file_path_context line language then []
  else if is_likely_url_or_display line then []
  else if !has_variable_path_argument line language then []
  else
    [{ severity := .WARNING, line_number := i, column := 0,
       message := msg, code := strStrip line, suggestion := sugg,
       category := "PATH_HANDLING" }]

/-- One line of the Go `_check_platform_detection`. -/
def checkGoPlatformDetectionLine (i : Nat) (line : String) : List Issue :=
  if is_comment line then []
  else
    match ["runtime.GOOS", "runtime.GOARCH"].findSome? (fun pat =>
        match strFind line pat with
        | some idx =>
          if !position_inside_string_literal line idx then some idx else none
        | none => none) with
    | some idx =>
      [{ severity := .INFO, line_number := i, column := idx,
         message := "Platform detection used; ensure all target platforms are handled",
         code := strStrip line,
         suggestion := "Document platform assumptions and test on each target (GOOS/GOARCH)",
         category := "PLATFORM_DETECTION" }]
    | none => []

/-- Match the Go `os.Getenv`/`os.LookupEnv` env-var regex for variable `v`
at the head of `cs`. -/
def matchGoGetenvAt (v : String) (cs : List Char) (prev : Option Char) : Option Unit :=
  let boundary := match prev with
    | none => true
    | some pc => !wordChar pc
  let afterCall (r : List Char) : Option Unit :=
    let (_, r2) := spanLen pySpace r
    match r2 with
    | '(' :: r3 =>
      let (_, r4) := spanLen pySpace r3
      match r4 with
      | q :: r5 =>
        if isQuote q && startsWithList r5 v.data then
          match r5.drop v.length with
          | q2 :: _ => if isQuote q2 then some () else none
          | [] => none
        else none
      | [] => none
    | _ => none
  if !boundary then none
  else if startsWithList cs "os.Getenv".data then afterCall (cs.drop 9)
  else if startsWithList cs "os.LookupEnv".data then afterCall (cs.drop 12)
  else none

/-- One line of the Go `_check_windows_env_in_path_context`. -/
def checkGoWindowsEnvLine (i : Nat) (line : String) : List Issue :=
  if is_comment line then []
  else if !is_file_path_context line "go" then []
  else
    match ["USERPROFILE", "APPDATA", "TEMP", "TMP"].findSome? (fun v =>
        match searchPos (matchGoGetenvAt v) line.data with
        | some (p, _) =>
          if !position_inside_string_literal line p then some (p, v) else none
        | none => none) with
    | some (p, v) =>
      [{ severity := .WARNING, line_number := i, column := p,
         message := "Windows-specific env var in path context: " ++ v,
         code := strStrip line,
         suggestion := "Use portable alternatives (e.g. HOME via os.UserHomeDir) or GOOS guards",
         category := "ENV_VAR" }]
    | none => []

/-- `GoChecker.check`: the four sub-checks in source order. -/
def goCheckerCheck (lines : List String) : List Issue :=
  gatherIssueLines (checkGrcHardcodedLine "go"
    "Use filepath.Join, os.Getenv, or runtime.GOOS guards for portability"
    "Use os.Getenv or filepath.Join with portable segments") lines ++
  gatherIssueLines (checkGrcVariablePathLine "go"
    "Variable used as file path; ensure it is built with filepath.Join or os.Getenv"
    "Use path/filepath and os.Getenv for cross-platform paths") lines ++
  gatherIssueLines checkGoPlatformDetectionLine lines ++
  gatherIssueLines checkGoWindowsEnvLine lines

/-- Whitespace then a double colon (the tail of the Rust crate-use
regexes). -/
def spacesThenColons (cs : List Char) : Bool :=
  let (_, r) := spanLen pySpace cs
  startsWithList r "::".data

/-- Match the Rust `use x11/x11rb/xdg/x11_dl ::` regex at the head of `cs`
(alternatives tried in source order, with backtracking to later
alternatives when the tail fails). -/
def matchRustUseX11At (cs : List Char) (prev : Option Char) : Option Unit :=
  let boundary := match prev with
    | none => true
    | some pc => !wordChar pc
  if boundary && startsWithList cs "use".data then
    let (w, r) := spanLen pySpace (cs.drop 3)
    if w == 0 then none
    else
      ["x11", "x11rb", "xdg", "x11_dl"].findSome? fun crate =>
        if startsWithList r crate.data && spacesThenColons (r.drop crate.length) then
          some ()
        else none
  else none

/-- Match the Rust `use wayland...::` regex at the head of `cs` (the
optional `_` + lowercase-run group is tried greedily, then dropped). -/
def matchRustUseWaylandAt (cs : List Char) (prev : Option Char) : Option Unit :=
  let boundary := match prev with
    | none => true
    | some pc => !wordChar pc
  if boundary && startsWithList cs "use".data then
    let (w, r) := spanLen pySpace (cs.drop 3)
    if w == 0 then none
    else if startsWithList r "wayland".data then
      let r2 := r.drop 7
      let withOpt : Bool :=
        match r2 with
        | '_' :: r3 =>
          let (n, r4) := spanLen (fun ch => 'a' ≤ ch && ch ≤ 'z') r3
          1 ≤ n && spacesThenColons r4
        | _ => false
      if withOpt || spacesThenColons r2 then some () else none
    else none
  else none

/-- The Rust X11 symbol list. -/
def rustX11Symbols : List String :=
  ["XOpenDisplay", "XCloseDisplay", "XCreateWindow", "xcb_connect", "xcb_disconnect"]

/-- One line of the Rust `_check_display_server_apis`. -/
def checkRustDisplayServerLine (i : Nat) (line : String) : List Issue :=
  if is_comment line then []
  else
    match searchPos matchRustUseX11At line.data with
    | some (p, _) =>
      if !position_inside_string_literal line p then
        [{ severity := .WARNING, line_number := i, column := p,
           message := "X11-related crate usage; code may not run on Wayland-only or other display servers",
           code := strStrip line,
           suggestion := "Use abstraction or cfg for X11/Wayland portability",
           category := "DISPLAY_API" }]
      else rest
    | none => rest
where
  rest : List Issue :=
    match searchPos matchRustUseWaylandAt line.data with
    | some (p, _) =>
      if !position_inside_string_literal line p then
        [{ severity := .WARNING, line_number := i, column := p,
           message := "Wayland-related crate usage; code may not run on X11-only systems",
           code := strStrip line,
           suggestion := "Consider X11/Wayland portability or abstraction layer",
           category := "DISPLAY_API" }]
      else symbolsPart
    | none => symbolsPart
  symbolsPart : List Issue :=
    firstSymbolIssue rustX11Symbols i line
      "X11 API usage; code may not run on Wayland-only or other display servers"
      "Use abstraction or conditional compilation for X11/Wayland portability" ++
    firstSymbolIssue waylandSymbols i line
      "Wayland API usage; code may not run on X11-only systems"
      "Consider X11/Wayland portability or abstraction layer"

/-- `RustChecker.check`: the three sub-checks in source order. -/
def rustCheckerCheck (language : String) (lines : List String) : List Issue :=
  gatherIssueLines (checkGrcHardcodedLine language
    "Use Path::new()/PathBuf::from() with std::path::MAIN_SEPARATOR or env/cfg for portability"
    "Use environment variables or Path APIs for cross-platform paths") lines ++
  gatherIssueLines (checkGrcVariablePathLine language
    "Variable used as file path; ensure it is built with Path::new/PathBuf::from or Path::join"
    "Use std::path::Path/PathBuf and std::path::MAIN_SEPARATOR or cfg for portability") lines ++
  gatherIssueLines checkRustDisplayServerLine lines

/-- Match `DllImport\s*\(\s*["quote]` at the head of `cs` (the C# checker
variant, which inspects the library names separately). -/
def matchDllImportHeadAt (cs : List Char) (_prev : Option Char) : Option Unit :=
  if startsWithList cs "DllImport".data then
    let (_, r1) := spanLen pySpace (cs.drop 9)
    match r1 with
    | '(' :: r2 =>
      let (_, r3) := spanLen pySpace r2
      match r3 with
      | q :: _ => if isQuote q then some () else none
      | [] => none
    | _ => none
  else none

/-- One line of the C# `_check_platform_apis` (the `continue`-chained
branches become nested alternatives). -/
def checkCsharpPlatformApisLine (i : Nat) (line : String) : List Issue :=
  if is_comment line then []
  else
    let dllBranch : Option Issue :=
      match searchPos matchDllImportHeadAt line.data with
      | some (p, _) =>
        if !position_inside_string_literal line p &&
           (strContains line "kernel32" || strContains line "ntdll" ||
            strContains line "user32" || strContains line "advapi32") then
          some { severity := .WARNING, line_number := i, column := p,
                 message := "Windows-specific DllImport detected",
                 code := strStrip line,
                 suggestion := "Use cross-platform APIs or runtime checks (RuntimeInformation.IsOSPlatform)",
                 category := "PLATFORM_API" }
        else none
      | none => none
    match dllBranch with
    | some issue => [issue]
    | none =>
      match strFind line "Microsoft.Win32" with
      | some idx =>
        if !position_inside_string_literal line idx then
          [{ severity := .WARNING, line_number := i, column := idx,
             message := "Windows-specific namespace: Microsoft.Win32",
             code := strStrip line,
             suggestion := "Use cross-platform APIs or RuntimeInformation.IsOSPlatform guards",
             category := "PLATFORM_API" }]
        else csharpMonoPart i line
      | none => csharpMonoPart i line
where
  csharpMonoPart (i : Nat) (line : String) : List Issue :=
    let monoIdx : Option Nat :=
      match strFind line "Mono.Unix" with
      | some idx => some idx
      | none => strFind line "Mono.Posix"
    match monoIdx with
    | some idx =>
      if !position_inside_string_literal line idx then
        [{ severity := .WARNING, line_number := i, column := idx,
           message := "Mono/Unix-specific namespace; not available on all .NET runtimes",
           code := strStrip line,
           suggestion := "Use cross-platform .NET APIs or runtime checks",
           category := "PLATFORM_API" }]
      else csharpDetectPart i line
    | none => csharpDetectPart i line
  csharpDetectPart (i : Nat) (line : String) : List Issue :=
    if strContains line "IsOSPlatform" && strContains line "OSPlatform." then
      match strFind line "IsOSPlatform" with
      | some idx =>
        if !position_inside_string_literal line idx then
          [{ severity := .INFO, line_number := i, column := idx,
             message := "Platform detection used; ensure all target platforms are handled",
             code := strStrip line,
             suggestion := "Document platform assumptions and test on each target",
             category := "PLATFORM_DETECTION" }]
        else []
      | none => []
    else []

/-- `CSharpChecker.check`: the three sub-checks in source order. -/
def csharpCheckerCheck (language : String) (lines : List String) : List Issue :=
  gatherIssueLines (checkGrcHardcodedLine language
    "Use Path.Combine, Path.GetFullPath, or Environment.GetFolderPath for portability"
    "Use environment variables or Path APIs for cross-platform paths") lines ++
  gatherIssueLines (checkGrcVariablePathLine language
    "Variable used as file path; ensure it is built with Path.Combine or Path.GetFullPath"
    "Use Path.Combine, Path.GetFullPath, or Environment.GetFolderPath for portability") lines ++
  gatherIssueLines checkCsharpPlatformApisLine lines

/-! ### `context_pruner.py` -/

/-- `ENV_API_INDICATORS`. -/
def ENV_API_INDICATORS : List String :=
  ["getenv(", "os.environ", "os.getenv(", "process.env", "subprocess.",
   "environ[", "environ.get("]

/-- `DISPLAY_INDICATORS`. -/
def DISPLAY_INDICATORS : List String :=
  ["print(", "log(", "logger.", "message", "display", "repr("]

/-- `PLATFORM_VAR_NAMES`. -/
def PLATFORM_VAR_NAMES : List String := ["TEMP", "TMP", "USERPROFILE", "APPDATA"]

/-- Does the `%VAR%` env-syntax pattern match anywhere in `s`? -/
def envSyntaxSearch (s : String) : Bool := !(envSyntaxMatches 0 s.data).isEmpty

/-- `_classify_literal`. -/
def classify_literal (literal : String) : String :=
  if envSyntaxSearch literal then "env_syntax"
  else if PLATFORM_VAR_NAMES.contains (strStrip literal) then "platform_var"
  else if looks_like_file_path literal then "path"
  else "other"

/-- Update an ordered association map at a key (insert or overwrite). -/
def assocUpsert (m : List (String × α)) (k : String) (v : α) : List (String × α) :=
  match m with
  | [] => [(k, v)]
  | (k0, v0) :: rest =>
    if k0 == k then (k0, v) :: rest else (k0, v0) :: assocUpsert rest k v

/-- Lookup in an ordered association map. -/
def assocFind (m : List (String × α)) (k : String) : Option α :=
  match m with
  | [] => none
  | (k0, v0) :: rest => if k0 == k then some v0 else assocFind rest k

/-- `_build_assignment_map_python`: variable name to (line number, literal,
kind), latest assignment wins; `other` literals are discarded. -/
def build_assignment_map_python (lines : List String) :
    List (String × (Nat × String × String)) :=
  (List.enumFrom 1 lines).foldl
    (fun m p =>
      if is_comment p.2 then m
      else
        match searchAssign p.2.data with
        | some (var, literal) =>
          let kind := classify_literal literal
          if kind != "other" then assocUpsert m var (p.1, literal, kind) else m
        | none => m)
    []

/-- Append a usage type for a variable in the usage map. -/
def usageAppend (m : List (String × List String)) (k : String) (u : String) :
    List (String × List String) :=
  match assocFind m k with
  | some us => assocUpsert m k (us ++ [u])
  | none => assocUpsert m k [u]

/-- `re.finditer` of a call-argument regex: captured identifiers in order,
non-overlapping. -/
def finditerCallArgAux (alts : List String) (identStart identRest : Char → Bool) :
    Nat → List Char → List String
  | 0, _ => []
  | _ + 1, [] => []
  | fuel + 1, c :: cs =>
    match matchCallArgAt alts identStart identRest (c :: cs) with
    | some (v, len) => v :: finditerCallArgAux alts identStart identRest fuel
        (List.drop (max len 1 - 1) cs)
    | none => finditerCallArgAux alts identStart identRest fuel cs

/-- The finditer over a whole list (fuel = length, which always suffices). -/
def finditerCallArg (alts : List String) (identStart identRest : Char → Bool)
    (cs : List Char) : List String :=
  finditerCallArgAux alts identStart identRest (cs.length + 1) cs

/-- One line of `_build_usage_map_python`: record `file_io` for each bare
first argument of a recognized file-I/O call and `env_api` for each
argument of `getenv(...)`.  The `env_var_str` loop of the source has an
empty body (`pass`) and records nothing. -/
def usageMapStep (m : List (String × List String)) (line : String) :
    List (String × List String) :=
  if is_comment line then m
  else
    let m1 := (finditerCallArg varPathAltsPython identStartPy identRestPy
      line.data).foldl (fun acc v => usageAppend acc v "file_io") m
    (finditerCallArg ["getenv"] identStartPy identRestPy line.data).foldl
      (fun acc v => usageAppend acc v "env_api") m1

/-- `_build_usage_map_python`: per identifier, usage types in occurrence
order. -/
def build_usage_map_python (lines : List String) : List (String × List String) :=
  lines.foldl usageMapStep []

/-- `_line_usage_types`. -/
def line_usage_types (line : String) : List String :=
  (if FILE_PATH_CONTEXT_PYTHON.any (strContains line ·) then ["file_io"] else []) ++
  (if ENV_API_INDICATORS.any (strContains line ·) then ["env_api"] else []) ++
  (if DISPLAY_INDICATORS.any (strContains line ·) then ["display"] else [])

/-- The `_line_usage` lookup (built for every line, with the empty set for
out-of-range line numbers). -/
def lineUsage (lines : List String) (ln : Nat) : List String :=
  if 1 ≤ ln && ln ≤ lines.length then line_usage_types (lines.getD (ln - 1) "")
  else []

/-- `_build_context`: the assignment and usage maps are built only for
Python; the per-line usage classification is language-independent. -/
def buildContext (lines : List String) (language : String) :
    List (String × (Nat × String × String)) × List (String × List String) :=
  if language == "python" then
    (build_assignment_map_python lines, build_usage_map_python lines)
  else ([], [])

/-- `ContextPruner._should_promote_variable_path`. -/
def should_promote_variable_path
    (amap : List (String × (Nat × String × String)))
    (umap : List (String × List String)) (cd : ContextData) : Bool :=
  match cd.var with
  | none => true
  | some v =>
    if v == "" then true
    else
      let kindBad := match assocFind amap v with
        | some t => t.2.2 != "path"
        | none => false
      if kindBad then false
      else
        let usages := (assocFind umap v).getD []
        if usages.isEmpty then true
        else if usages.contains "file_io" then true
        else if usages.contains "display" && !usages.contains "file_io" &&
                !usages.contains "env_api" then false
        else true

/-- `ContextPruner._should_promote_string_in_condition`. -/
def should_promote_string_in_condition (lines : List String)
    (umap : List (String × List String)) (c : Candidate) : Bool :=
  if c.line_number < 1 || c.line_number > lines.length then false
  else
    let line := lines.getD (c.line_number - 1) ""
    if FILE_PATH_CONTEXT_PYTHON.any (strContains line ·) then true
    else umap.any fun vu => vu.2.contains "file_io" && strContains line vu.1

/-- `ContextPruner._should_promote_string_env_or_platform`. -/
def should_promote_string_env_or_platform (lines : List String) (c : Candidate) : Bool :=
  let types := lineUsage lines c.line_number
  if types.contains "env_api" then true
  else if types.contains "display" && !types.contains "env_api" &&
          !types.contains "file_io" then false
  else true

/-- A promoted candidate becomes an issue with identical fields; the context
fields are dropped. -/
def candidateToIssue (c : Candidate) : Issue :=
  { severity := c.severity, line_number := c.line_number, column := c.column,
    message := c.message, code := c.code, suggestion := c.suggestion,
    category := c.category }

/-- The per-candidate decision of `ContextPruner.prune`, given the built
context. -/
def pruneCandidate (lines : List String)
    (ctx : List (String × (Nat × String × String)) × List (String × List String))
    (c : Candidate) : Option Issue :=
  if c.context_type == "variable_path" then
    if should_promote_variable_path ctx.1 ctx.2 c.context_data then
      some (candidateToIssue c)
    else none
  else if c.context_type == "string_env_syntax" ||
          c.context_type == "string_platform_var" then
    if should_promote_string_env_or_platform lines c then
      some (candidateToIssue c)
    else none
  else if c.context_type == "string_in_condition" then
    if should_promote_string_in_condition lines ctx.2 c then
      some (candidateToIssue c)
    else none
  else some (candidateToIssue c)

/-- `ContextPruner.prune`. -/
def prunerPrune (lines : List String) (language : String)
    (cands : List Candidate) : List Issue :=
  cands.filterMap (pruneCandidate lines (buildContext lines language))

/-! ### `main_checker.py` — `check_file` -/

/-- The outcome of trying to read the file, abstracting the filesystem. -/
inductive FileAccess where
  | missing
  | unreadable (err : String)
  | content (text : String)
deriving DecidableEq, Repr

/-- Python `content.split` on the newline character, on a character list:
no collapsing, the empty input gives one empty field. -/
def splitOnNl : List Char → List (List Char)
  | [] => [[]]
  | c :: cs =>
    if c == Char.ofNat 10 then [] :: splitOnNl cs
    else
      match splitOnNl cs with
      | h :: t => (c :: h) :: t
      | [] => [[c]]

/-- Python `content.split(backslash-n)`. -/
def pySplitLines (text : String) : List String :=
  (splitOnNl text.data).map fun l => ⟨l⟩

/-- A checker invocation: issues and (appended) candidates. -/
abbrev CheckerRun := List String → List Issue × List Candidate

/-- The five general checkers, in the fixed order of `self.checkers`
(candidate sink always supplied by `check_file`). -/
def generalCheckers (language : String) : List CheckerRun :=
  [pathCheckerCheck language true,
   apiCheckerCheck language true,
   fun lines => (fileCheckerCheck language lines, []),
   envCheckerCheck true,
   systemCheckerCheck language true]

/-- Dispatch into `self.language_checkers` (C and C++ share one checker, JS
and TS share one, Java and Kotlin share one). -/
def languageCheckerRun (language : String) : Option CheckerRun :=
  if language == "python" then some (pythonCheckerCheck true)
  else if language == "cpp" || language == "c" then
    some (fun lines => (cppCheckerCheck language lines, []))
  else if language == "javascript" || language == "typescript" then
    some (fun lines => (jsCheckerCheck language lines, []))
  else if language == "java" || language == "kotlin" then
    some (fun lines => (javaCheckerCheck lines, []))
  else if language == "go" then some (fun lines => (goCheckerCheck lines, []))
  else if language == "rust" then
    some (fun lines => (rustCheckerCheck language lines, []))
  else if language == "csharp" then
    some (fun lines => (csharpCheckerCheck language lines, []))
  else none

/-- `CrossPlatformChecker.check_file`, with the filesystem interaction
abstracted into `FileAccess`: the language is detected from the (lower-cased)
extension, the content is split on newlines, the general checkers run in
fixed order against a shared candidate stream, then the language checker,
then — only if any candidates were produced — the pruner, whose promoted
issues are appended last. -/
def check_file (ext : String) (access : FileAccess) : List Issue :=
  match access with
  | .missing => []
  | .unreadable e =>
    [{ severity := .ERROR, line_number := 0, column := 0,
       message := "Could not read file: " ++ e,
       code := "", suggestion := "", category := "FILE_IO" }]
  | .content text =>
    let language := detect_language ext
    let lines := pySplitLines text
    let general := (generalCheckers language).foldl
      (fun (acc : List Issue × List Candidate) checker =>
        let r := checker lines
        (acc.1 ++ r.1, acc.2 ++ r.2))
      ([], [])
    let afterLang :=
      match languageCheckerRun language with
      | some checker =>
        let r := checker lines
        (general.1 ++ r.1, general.2 ++ r.2)
      | none => general
    if afterLang.2.isEmpty then afterLang.1
    else afterLang.1 ++ prunerPrune lines language afterLang.2

/-! ### Circular-dependency detection: `app/services/relationship_detector.py`
(`_detect_circular_dependencies`) and
`main_checker.py` (`CrossPlatformChecker._detect_circular_dependencies`).
The two functions are verbatim copies except for the normalization step the
HTTP-layer version applies to a discovered cycle before deduplication. -/

/-- A dependency graph: insertion-ordered association list from node to its
`imports` list (the Python dict keyed by file-path strings). -/
abbrev DepGraph := List (String × List String)

/-- The keys of the graph, in insertion order. -/
def graphKeys (g : DepGraph) : List String := g.map (·.1)

/-- `graph[node]["imports"]` guarded by `node in graph`. -/
def graphImports (g : DepGraph) (node : String) : List String :=
  (assocFind g node).getD []

/-- Python `list.index`: index of the first occurrence. -/
def idxOf (l : List String) (x : String) : Nat :=
  match l with
  | [] => 0
  | y :: ys => if y == x then 0 else 1 + idxOf ys x

/-- Lexicographic comparison of character lists by code point (Python `<`
on strings). -/
def charListLt : List Char → List Char → Bool
  | [], [] => false
  | [], _ :: _ => true
  | _ :: _, [] => false
  | a :: as, b :: bs =>
    if Nat.blt a.toNat b.toNat then true
    else if Nat.blt b.toNat a.toNat then false
    else charListLt as bs

/-- Python `<` on strings. -/
def strLt (a b : String) : Bool := charListLt a.data b.data

/-- Index of the lexicographically smallest element (first occurrence), as
computed by `min(range(len(l)), key=lambda i: l[i])`. -/
def argminIdx (l : List String) : Nat :=
  match l with
  | [] => 0
  | x :: xs => argminGo xs x 0 1
where
  argminGo : List String → String → Nat → Nat → Nat
    | [], _, bestIdx, _ => bestIdx
    | y :: ys, best, bestIdx, cur =>
      if strLt y best then argminGo ys y cur (cur + 1)
      else argminGo ys best bestIdx (cur + 1)

/-- The HTTP-layer normalization of a discovered cycle (with its closing
duplicate): `cycle[argmin:-1] + [cycle[argmin]]`, where the argmin ranges
over `cycle[:-1]`.  Entries before the argmin are NOT carried over. -/
def normalizeCycleHTTP (c : List String) : List String :=
  let core := c.dropLast
  let k := argminIdx core
  core.drop k ++ [core.getD k ""]

/-- State of the DFS (`circular`, `visited`, `rec_stack`; the two set
variables are modelled as lists with membership tests). -/
structure DfsState where
  circular : List (List String)
  visited : List String
  recStack : List String
deriving DecidableEq, Repr

/-- The recursive `dfs` of both cycle detectors, parameterized over the
cycle normalization (`normalizeCycleHTTP` for the HTTP layer, the identity
for the orchestrator).  The fuel bounds the recursion depth; the callers
pass `graph.length + 1`, which is enough since every non-trivial recursive
step adds a previously unvisited graph key to `visited`. -/
def dfsVisit (g : DepGraph) (norm : List String → List String) :
    Nat → String → List String → DfsState → DfsState
  | 0, _, _, st => st
  | fuel + 1, node, path, st =>
    if st.recStack.contains node then
      let cycleStart := idxOf path node
      let cycle := path.drop cycleStart ++ [node]
      let nc := norm cycle
      if st.circular.contains nc then st
      else { st with circular := st.circular ++ [nc] }
    else if st.visited.contains node then st
    else
      let st1 : DfsState :=
        { st with visited := st.visited ++ [node], recStack := st.recStack ++ [node] }
      let st2 := (graphImports g node).foldl
        (fun acc nb =>
          if (graphKeys g).contains nb then dfsVisit g norm fuel nb (path ++ [node]) acc
          else acc)
        st1
      { st2 with recStack := st2.recStack.erase node }

/-- The outer loop of `_detect_circular_dependencies`. -/
def detectCircular (g : DepGraph) (norm : List String → List String) :
    List (List String) :=
  ((graphKeys g).foldl
    (fun (st : DfsState) node =>
      if st.visited.contains node then st
      else dfsVisit g norm (g.length + 1) node [] st)
    { circular := [], visited := [], recStack := [] }).circular

/-- The HTTP-layer Relationship Detector's cycle detection
(`relationship_detector.py`), which normalizes each discovered cycle before
deduplication. -/
def detect_circular_dependencies_http (g : DepGraph) : List (List String) :=
  detectCircular g normalizeCycleHTTP

/-- The orchestrator's cycle detection (`main_checker.py`), which
deduplicates cycles by exact list equality with no normalization. -/
def detect_circular_dependencies_orch (g : DepGraph) : List (List String) :=
  detectCircular g id

/-- Is `rot` a rotation of the cycle core `core` (same length, all nodes
kept, rotated to some start)?  Used to state what the spec asserts about the
HTTP-layer chains. -/
def isCycleRotation (core : List String) (chain : List String) : Bool :=
  match chain.dropLast, chain.getLast? with
  | rotCore, some lastNode =>
    chain.head? == some lastNode &&
    rotCore.length == core.length &&
    (List.range core.length).any fun k =>
      rotCore == core.drop k ++ core.take k
  | _, _ => false

/-! ### `app/ai_status.py` -/

/-- The AI status record. -/
structure AIStatus where
  available : Bool
  reason : String
  api_key_set : Bool
  openai_available : Bool
  model : String
deriving DecidableEq, Repr

/-- The process environment and probe outcome `get_ai_status` depends on:
whether the `openai` module imports, the configured key and model, and the
result of the live 1-token test request (`Except.error` carrying `str(e)`). -/
structure AIEnv where
  openaiAvailable : Bool
  key : String
  model : String
  probe : Except String Unit
deriving Repr

/-- The module-level memoization state (`_status_cache`,
`_cache_timestamp`); wall-clock times are modelled as naturals. -/
structure AICache where
  cache : Option AIStatus
  timestamp : Nat
deriving DecidableEq, Repr

/-- `CACHE_TTL`. -/
def CACHE_TTL : Nat := 30

/-- Classification of a failed probe by substring match on the error text. -/
def classifyProbeError (msg : String) : String :=
  if strContains msg "401" || strContains msg "Unauthorized" || strContains msg "Invalid" then
    "TOGETHER_API_KEY is invalid or expired"
  else if strContains (strLower msg) "timeout" then
    "API request timed out (check network)"
  else "API test failed: " ++ strTake msg 100

/-- The body of `get_ai_status` after the memoization check: the cheap
checks return without touching the cache; only the branch that reaches the
live probe writes it. -/
def computeAIStatus (env : AIEnv) (st : AICache) (now : Nat) : AIStatus × AICache :=
  let base : AIStatus :=
    { available := false, reason := "", api_key_set := false,
      openai_available := false, model := env.model }
  if !env.openaiAvailable then
    ({ base with reason := "openai package not installed" }, st)
  else
    let s1 := { base with openai_available := true }
    if env.key == "" then
      ({ s1 with reason := "TOGETHER_API_KEY not set in .env" }, st)
    else
      let s2 := { s1 with api_key_set := true }
      if env.key.length < 10 then
        ({ s2 with reason := "TOGETHER_API_KEY appears invalid (too short)" }, st)
      else if strStartsWith env.key "your_api_key" || env.key == "your_api_key_here" then
        ({ s2 with reason := "TOGETHER_API_KEY not configured (still using placeholder)" }, st)
      else
        let final : AIStatus :=
          match env.probe with
          | .ok _ => { s2 with available := true, reason := "AI features available" }
          | .error msg => { s2 with reason := classifyProbeError msg }
        (final, { cache := some final, timestamp := now })

/-- `get_ai_status()`: returns the status and the (possibly updated)
memoization state. -/
def get_ai_status (env : AIEnv) (st : AICache) (now : Nat) : AIStatus × AICache :=
  match st.cache with
  | some cached =>
    if now - st.timestamp < CACHE_TTL then (cached, st) else computeAIStatus env st now
  | none => computeAIStatus env st now

/-- The statuses on which `get_ai_status` returns before reaching the live
probe (the cheap failure outcomes of the claim). -/
def cheapFailure (env : AIEnv) : Bool :=
  !env.openaiAvailable || env.key == "" || env.key.length < 10 ||
  strStartsWith env.key "your_api_key" || env.key == "your_api_key_here"

/-- Is the cache consulted unsuccessfully for this call (no stored status,
or the stored one is older than the TTL)? -/
def cacheMiss (st : AICache) (now : Nat) : Bool :=
  match st.cache with
  | some _ => !(now - st.timestamp < CACHE_TTL)
  | none => true

/-! ### Upload ceiling on `POST /review/results` -/

/-- Python `html.escape` with `quote=True`. -/
def html_escape (s : String) : String :=
  ⟨(s.data.map fun c =>
    if c == '&' then "&amp;".data
    else if c == '<' then "&lt;".data
    else if c == '>' then "&gt;".data
    else if c == dq then "&quot;".data
    else if c == sq then "&#x27;".data
    else [c]).flatten⟩

/-- The form-error block built by `render_review_form_fragment`
(`app/templates/__init__.py`): present exactly when an error message is
supplied. -/
def error_block_html (error : Option String) : String :=
  match error with
  | some err => "<div class=" ++ dqStr ++ "form-error" ++ dqStr ++ ">" ++
      html_escape err ++ "</div>"
  | none => ""

/-- A rendered homepage: whether the review tab is open, and the page
body. -/
structure HomepageRender where
  review_tab_open : Bool
  body : String
deriving Repr

/-- Modelled from the spec: the homepage template files (`root.html`,
`review_form.html`, `base.html`) are not part of the source listing, so the
text surrounding the form-error block is abstracted into the `pre`/`post`
parameters; per the spec the homepage render embeds the review-form
fragment, whose form-error block (`error_block_html`, from the source) is
substituted into it. -/
def render_homepage (pre post : String) (review_tab_open : Bool)
    (form_error : Option String) : HomepageRender :=
  { review_tab_open := review_tab_open,
    body := pre ++ error_block_html form_error ++ post }

/-- An HTTP response of the upload flow. -/
structure HttpResponse where
  status : Nat
  page : HomepageRender
deriving Repr

/-- The multipart parser's file-count ceiling (vendored web framework). -/
def MAX_UPLOAD_FILES : Nat := 1000

/-- The exact form-error text of the too-many-files rejection. -/
def TOO_MANY_FILES_MESSAGE : String :=
  "Too many files. Maximum number of files is 1000."

/-- Modelled from the spec: the multipart parser's 1000-file ceiling and the
App Assembly's error translator are not part of the source listing (the
`app/main.py` present is a superseded snapshot without them); per the spec
(sections 4.18, 4.19 and 7), an upload of more than 1000 files to
`POST /review/results` is rejected by the parser and the translator converts
the rejection into a 200 homepage render with the review tab open and the
message injected as the form error.  `none` means the request passes the
ceiling and proceeds to `review_results_post`. -/
def review_results_upload_gate (pre post : String) (fileCount : Nat) :
    Option HttpResponse :=
  if fileCount > MAX_UPLOAD_FILES then
    some { status := 200,
           page := render_homepage pre post true (some TOO_MANY_FILES_MESSAGE) }
  else none

/-! ### Concrete inputs and derived statements used by the verification -/

/-- A Python file assigning a Windows path literal to a variable that is
then passed only to `print`. -/
def c1FileText : String :=
  "path = " ++ dqStr ++ "C:\\Users\\test\\file.txt" ++ dqStr ++ "\nprint(path)"

/-- A Python file assigning a Unix path literal and later opening it. -/
def c2FileText : String :=
  "path = " ++ dqStr ++ "/home/user/app" ++ dqStr ++ "\nopen(path)"

/-- A non-Python line whose `%TEMP%` string is used only in a display call. -/
def c3Line : String := "log(" ++ dqStr ++ "%TEMP%" ++ dqStr ++ ")"

/-- A variable-path candidate used to witness the unconditional non-Python
promotion. -/
def c3VarCand : Candidate :=
  { severity := .ERROR, line_number := 1, column := 0,
    message := "Hardcoded Unix home directory path detected",
    code := "p = " ++ dqStr ++ "/home/x" ++ dqStr,
    suggestion := hardcodedPathSuggestion,
    category := "HARDCODED_PATH",
    context_type := "variable_path",
    context_data := { var := some "p" } }

/-- A Python `open` call with a text mode and no `encoding=` argument (and
no `mode=` keyword). -/
def c9Line : String :=
  "open(" ++ dqStr ++ "f.txt" ++ dqStr ++ ", " ++ dqStr ++ "r" ++ dqStr ++ ")"

/-- The condition under which `_check_file_encoding` fires on a Python
line, written as one conjunction. -/
def fileEncodingCond (line : String) : Bool :=
  (searchPos matchOpenCallAt line.data).isSome &&
  !strContains line "encoding=" && strContains line "mode=" &&
  !strHasChar line 'b' &&
  (strHasChar line 'r' || strHasChar line 'w' || strHasChar line 'a')

/-- The issue `_check_file_encoding` emits. -/
def fileEncodingIssue (i : Nat) (line : String) : Issue :=
  { severity := .WARNING, line_number := i, column := 0,
    message := "File open without explicit encoding",
    code := strStrip line,
    suggestion := "Specify encoding=" ++ sqStr ++ "utf-8" ++ sqStr ++
      " for text files to ensure cross-platform compatibility",
    category := "FILE_ENCODING" }

/-- A line containing two different classic absolute-path prefixes. -/
def c10Line : String :=
  "p = " ++ dqStr ++ "C:\\one" ++ dqStr ++ " + " ++ dqStr ++ "/home/two" ++ dqStr

/-- The two-node graph whose DFS discovers the cycle `[B, A, B]`. -/
def c8GraphBA : DepGraph := [("B", ["A"]), ("A", ["B"])]

/-- The same cycle with the smaller node first in insertion order. -/
def c8GraphAB : DepGraph := [("A", ["B"]), ("B", ["A"])]

/-- An environment on which `get_ai_status` fails at the cheap key-length
check, before the probe. -/
def c7CheapEnv : AIEnv :=
  { openaiAvailable := false, key := "", model := "test-model", probe := .ok () }

/-! ### Helper lemmas -/

/-- `filterMap` of nothing is nothing: the pruner on no candidates. -/
theorem prune_nil (lines : List String) (language : String) :
    prunerPrune lines language [] = [] := rfl

/-- The candidate-emptiness guard of `check_file` is inert: when the list is
empty the pruner adds nothing anyway. -/
theorem if_isEmpty_append_prune (lines : List String) (language : String)
    (l : List Issue) (c : List Candidate) :
    (if c.isEmpty then l else l ++ prunerPrune lines language c) =
      l ++ prunerPrune lines language c := by
  cases c with
  | nil => simp [prune_nil]
  | cons h t => rfl

/-- Invariance of `foldl` under a preserved predicate. -/
theorem foldl_inv {α β : Type} {P : α → Prop} (f : α → β → α)
    (hf : ∀ a b, P a → P (f a b)) :
    ∀ (l : List β) (a : α), P a → P (l.foldl f a) := by
  intro l
  induction l with
  | nil => intro a ha; exact ha
  | cons x xs ih => intro a ha; exact ih (f a x) (hf a x ha)

/-- A member of an updated association map is an old member or the new
binding. -/
theorem mem_assocUpsert {α : Type} {m : List (String × α)} {k : String} {v : α}
    {e : String × α} (he : e ∈ assocUpsert m k v) : e ∈ m ∨ e = (k, v) := by
  induction m with
  | nil =>
    simp only [assocUpsert, List.mem_singleton] at he
    exact Or.inr he
  | cons hd tl ih =>
    simp only [assocUpsert] at he
    by_cases hk : hd.1 = k
    · rw [if_pos (by simpa using hk)] at he
      rcases List.mem_cons.mp he with h | h
      · exact Or.inr (by simpa [hk] using h)
      · exact Or.inl (List.mem_cons_of_mem _ h)
    · rw [if_neg (by simpa using hk)] at he
      rcases List.mem_cons.mp he with h | h
      · exact Or.inl (by simp [h])
      · rcases ih h with h1 | h1
        · exact Or.inl (List.mem_cons_of_mem _ h1)
        · exact Or.inr h1

/-- A found binding is a member of the map. -/
theorem assocFind_mem {α : Type} {m : List (String × α)} {k : String} {v : α}
    (h : assocFind m k = some v) : (k, v) ∈ m := by
  induction m with
  | nil => simp [assocFind] at h
  | cons hd tl ih =>
    simp only [assocFind] at h
    by_cases hk : hd.1 = k
    · rw [if_pos (by simpa using hk)] at h
      have : hd = (k, v) := by
        cases hd
        simp_all
      simp [this]
    · rw [if_neg (by simpa using hk)] at h
      exact List.mem_cons_of_mem _ (ih h)

/-- `usageAppend` never introduces the usage type `display` (nor any other
type not passed to it). -/
theorem usageAppend_no_display {m : List (String × List String)} {k u : String}
    (hu : ¬u = "display")
    (hm : ∀ e ∈ m, ("display" : String) ∉ e.2) :
    ∀ e ∈ usageAppend m k u, ("display" : String) ∉ e.2 := by
  intro e he
  unfold usageAppend at he
  cases hf : assocFind m k with
  | some us =>
    rw [hf] at he
    rcases mem_assocUpsert he with h | h
    · exact hm e h
    · have hus : ("display" : String) ∉ us := hm (k, us) (assocFind_mem hf)
      subst h
      simp only [List.mem_append, List.mem_singleton, not_or]
      exact ⟨hus, fun hc => hu hc.symm⟩
  | none =>
    rw [hf] at he
    rcases mem_assocUpsert he with h | h
    · exact hm e h
    · subst h
      simp only [List.mem_singleton]
      exact fun hc => hu hc.symm

/-- Every list starts with the empty list. -/
theorem startsWithList_nil (l : List Char) : startsWithList l [] = true := by
  cases l <;> rfl

/-- `startsWithList` is stable under extending the searched list. -/
theorem startsWithList_append {t s b : List Char}
    (h : startsWithList s t = true) : startsWithList (s ++ b) t = true := by
  induction t generalizing s with
  | nil => exact startsWithList_nil _
  | cons x xs ih =>
    cases s with
    | nil => simp [startsWithList] at h
    | cons y ys =>
      simp only [List.cons_append, startsWithList, Bool.and_eq_true] at h ⊢
      exact ⟨h.1, ih h.2⟩

/-- An empty needle is contained everywhere. -/
theorem containsSub_nil (l : List Char) : containsSub l [] = true := by
  cases l with
  | nil => rfl
  | cons c cs => simp [containsSub, startsWithList]

/-- Containment is stable under appending on the right. -/
theorem containsSub_append_right {s b t : List Char}
    (h : containsSub s t = true) : containsSub (s ++ b) t = true := by
  induction s with
  | nil =>
    simp only [containsSub, List.isEmpty_iff] at h
    subst h
    simp [containsSub_nil]
  | cons c cs ih =>
    simp only [containsSub, Bool.or_eq_true] at h ⊢
    rcases h with h | h
    · exact Or.inl (startsWithList_append h)
    · exact Or.inr (ih h)

/-- Containment is stable under appending on the left. -/
theorem containsSub_append_left {a s t : List Char}
    (h : containsSub s t = true) : containsSub (a ++ s) t = true := by
  induction a with
  | nil => simpa using h
  | cons c cs ih =>
    simp only [List.cons_append, containsSub, Bool.or_eq_true]
    exact Or.inr ih

/-- A needle contained in the middle of a three-part concatenation is
contained in the whole. -/
theorem strContains_of_middle (pre mid post needle : String)
    (h : strContains mid needle = true) :
    strContains (pre ++ mid ++ post) needle = true := by
  unfold strContains at h ⊢
  rw [String.data_append, String.data_append]
  exact containsSub_append_right (containsSub_append_left h)

/-! ### Claim theorems -/

/-- C1: the claim says a path literal assigned to a variable used only in
display calls yields no Issue (pruner drop on display-only usages).  The
code cannot do this: `_build_usage_map_python` never records the usage type
`display` for any variable on any input (first conjunct), so the
display-only drop branch of `_should_promote_variable_path` is dead, and on
the claimed input the candidate is promoted with no recorded usages: the
full `check_file` pass produces one ERROR Issue (second conjunct). -/
theorem claim_C1 :
    (∀ (lines : List String) (e : String × List String),
        e ∈ build_usage_map_python lines → ("display" : String) ∉ e.2) ∧
    check_file ".py" (.content c1FileText) =
      [{ severity := .ERROR, line_number := 1, column := 0,
         message := "Hardcoded Windows drive letter path detected",
         code := "path = " ++ dqStr ++ "C:\\Users\\test\\file.txt" ++ dqStr,
         suggestion := hardcodedPathSuggestion,
         category := "HARDCODED_PATH" }] := by
  constructor
  · intro lines e he
    refine foldl_inv (P := fun m => ∀ e ∈ m, ("display" : String) ∉ e.2)
      usageMapStep ?_ lines [] (by simp) e he
    intro m line hm
    unfold usageMapStep
    by_cases hc : is_comment line = true
    · simpa [hc] using hm
    · simp only [hc, Bool.false_eq_true, if_false]
      have h1 : ∀ e ∈ (finditerCallArg varPathAltsPython identStartPy identRestPy
          line.data).foldl (fun acc v => usageAppend acc v "file_io") m,
          ("display" : String) ∉ e.2 :=
        foldl_inv
          (P := fun (mm : List (String × List String)) =>
            ∀ e ∈ mm, ("display" : String) ∉ e.2) _
          (fun a b ha => usageAppend_no_display (u := "file_io") (by decide) ha)
          _ m hm
      exact foldl_inv
        (P := fun (mm : List (String × List String)) =>
          ∀ e ∈ mm, ("display" : String) ∉ e.2) _
        (fun a b ha => usageAppend_no_display (u := "env_api") (by decide) ha)
        _ _ h1
  · decide

/-- C1 witness: a concrete application of the universally quantified part
(membership hypothesis discharged at a computed usage-map entry). -/
theorem claim_C1_witness : ("display" : String) ∉ ["file_io"] :=
  claim_C1.1 ["open(path)"] ("path", ["file_io"]) (by decide)

/-- C2 counterexample: on the claimed input (`path = "/home/user/app"`
followed by `open(path)`) a full `check_file` pass reports three Issues,
not exactly one. -/
theorem claim_C2_counterexample :
    (check_file ".py" (.content c2FileText)).length = 3 ∧
    ¬(check_file ".py" (.content c2FileText)).length = 1 := by
  constructor <;> decide

/-- C2 (amended): the pair yields exactly three Issues — the direct
variable-path WARNING at the `open(path)` line from the Python checker,
then the two pruner-promoted candidates of the assignment line (the
HARDCODED_PATH ERROR and the string-path-concatenation WARNING), in that
order.  The hardcoded-path candidate itself contributes exactly one Issue. -/
theorem claim_C2 :
    check_file ".py" (.content c2FileText) =
      [{ severity := .WARNING, line_number := 2, column := 0,
         message := "Variable used as file path; ensure it is built with pathlib.Path or os.path.join()",
         code := "open(path)",
         suggestion := "Use pathlib.Path or os.path.join() for cross-platform path handling",
         category := "PATH_HANDLING" },
       { severity := .ERROR, line_number := 1, column := 0,
         message := "Hardcoded Unix home directory path detected",
         code := "path = " ++ dqStr ++ "/home/user/app" ++ dqStr,
         suggestion := hardcodedPathSuggestion,
         category := "HARDCODED_PATH" },
       { severity := .WARNING, line_number := 1, column := 7,
         message := "String path concatenation detected",
         code := "path = " ++ dqStr ++ "/home/user/app" ++ dqStr,
         suggestion := "Use pathlib.Path or os.path.join() for cross-platform path handling",
         category := "PATH_HANDLING" }] := by
  decide

/-- C3 counterexample: for a non-Python file the pruner does NOT promote
every candidate — the env checker's two candidates on a display-only
`log("%TEMP%")` line (language `c`) are both dropped, so two candidates go
in and zero Issues come out. -/
theorem claim_C3_counterexample :
    (envCheckerCheck true [c3Line]).2.length = 2 ∧
    prunerPrune [c3Line] "c" (envCheckerCheck true [c3Line]).2 = [] := by
  constructor <;> decide

/-- For the empty assignment and usage maps (every non-Python build),
`_should_promote_variable_path` promotes unconditionally. -/
theorem promote_var_path_empty (cd : ContextData) :
    should_promote_variable_path [] [] cd = true := by
  unfold should_promote_variable_path
  cases cd.var with
  | none => rfl
  | some v => by_cases hv : v == "" <;> simp [hv, assocFind]

/-- C3 (amended): for a non-Python language, the pruner promotes
unconditionally only the `variable_path` candidates and those whose
`context_type` is none of the three string kinds; candidates of the string
kinds still consult the language-independent per-line usage classification
and can be dropped. -/
theorem claim_C3 (language : String) (lines : List String) (cands : List Candidate)
    (hlang : language ≠ "python")
    (hty : ∀ c ∈ cands, c.context_type = "variable_path" ∨
      (c.context_type ≠ "string_env_syntax" ∧ c.context_type ≠ "string_platform_var" ∧
       c.context_type ≠ "string_in_condition")) :
    prunerPrune lines language cands = cands.map candidateToIssue := by
  unfold prunerPrune
  have hctx : buildContext lines language = ([], []) := by
    simp [buildContext, hlang]
  rw [hctx]
  have hone : ∀ c ∈ cands, pruneCandidate lines ([], []) c = some (candidateToIssue c) := by
    intro c hc
    unfold pruneCandidate
    by_cases hv : c.context_type = "variable_path"
    · simp [hv, promote_var_path_empty]
    · rcases hty c hc with h | ⟨h1, h2, h3⟩
      · exact absurd h hv
      · simp [hv, h1, h2, h3]
  clear hty
  revert hone
  induction cands with
  | nil => intro _; simp
  | cons c cs ih =>
    intro hone
    simp only [List.filterMap_cons, List.map_cons,
      hone c (List.mem_cons_self c cs)]
    rw [ih (fun d hd => hone d (List.mem_cons_of_mem c hd))]

/-- C3 witness: a non-Python `variable_path` candidate is promoted. -/
theorem claim_C3_witness :
    prunerPrune [] "c" [c3VarCand] = [candidateToIssue c3VarCand] :=
  claim_C3 "c" [] [c3VarCand] (by decide)
    (fun c hc => by
      simp only [List.mem_singleton] at hc
      subst hc
      exact Or.inl rfl)

/-- C4 counterexample: a Python `exec(...)` call IS flagged — the full
`check_file` pass on `exec(code_str)` is nonempty. -/
theorem claim_C4_counterexample :
    check_file ".py" (.content "exec(code_str)") ≠ [] := by decide

/-- C4 (amended): the API checker exempts Python `exec` entirely (no Issue
and no Candidate), but the system checker still reports the call, so a full
pass on `exec(code_str)` yields exactly one WARNING SYSTEM_CALL Issue. -/
theorem claim_C4 :
    check_file ".py" (.content "exec(code_str)") =
      [{ severity := .WARNING, line_number := 1, column := 0,
         message := "System call detected: exec(",
         code := "exec(code_str)",
         suggestion := "Ensure command syntax is compatible across platforms or use platform-specific guards",
         category := "SYSTEM_CALL" }] ∧
    apiCheckerCheck "python" true ["exec(code_str)"] = ([], []) := by
  constructor <;> decide

/-- C5: uploading more than 1000 files to `POST /review/results` yields a
200 response that re-renders the homepage with the review tab open and a
body containing the exact form-error text
`Too many files. Maximum number of files is 1000.` — for any surrounding
homepage template text. -/
theorem claim_C5 (pre post : String) (n : Nat) (h : n > 1000) :
    ∃ resp, review_results_upload_gate pre post n = some resp ∧
      resp.status = 200 ∧ resp.page.review_tab_open = true ∧
      strContains resp.page.body TOO_MANY_FILES_MESSAGE = true := by
  have hgate : review_results_upload_gate pre post n =
      some { status := 200,
             page := render_homepage pre post true (some TOO_MANY_FILES_MESSAGE) } := by
    unfold review_results_upload_gate
    rw [if_pos (show n > MAX_UPLOAD_FILES from h)]
  refine ⟨_, hgate, rfl, rfl, ?_⟩
  show strContains
    (render_homepage pre post true (some TOO_MANY_FILES_MESSAGE)).body
    TOO_MANY_FILES_MESSAGE = true
  unfold render_homepage
  exact strContains_of_middle pre _ post _ (by decide)

/-- C5 witness: the gate at 1001 files. -/
theorem claim_C5_witness :
    ∃ resp, review_results_upload_gate "" "" 1001 = some resp ∧
      resp.status = 200 ∧ resp.page.review_tab_open = true ∧
      strContains resp.page.body TOO_MANY_FILES_MESSAGE = true :=
  claim_C5 "" "" 1001 (by decide)

/-- C6: `check_file` returns `[]` for a missing path; exactly one synthetic
ERROR Issue (line 0, category FILE_IO, message prefixed
`Could not read file: `) for an unreadable file; and otherwise the
concatenation, in order, of the five general checkers' issues (Path, API,
File, Env, System), the language checker's issues, and the pruner-promoted
issues last, with no re-sorting. -/
theorem claim_C6 (ext errMsg text : String) :
    check_file ext .missing = [] ∧
    check_file ext (.unreadable errMsg) =
      [{ severity := .ERROR, line_number := 0, column := 0,
         message := "Could not read file: " ++ errMsg,
         code := "", suggestion := "", category := "FILE_IO" }] ∧
    check_file ext (.content text) =
      (pathCheckerCheck (detect_language ext) true (pySplitLines text)).1 ++
      (apiCheckerCheck (detect_language ext) true (pySplitLines text)).1 ++
      fileCheckerCheck (detect_language ext) (pySplitLines text) ++
      (envCheckerCheck true (pySplitLines text)).1 ++
      (systemCheckerCheck (detect_language ext) true (pySplitLines text)).1 ++
      (match languageCheckerRun (detect_language ext) with
       | some ck => (ck (pySplitLines text)).1
       | none => []) ++
      prunerPrune (pySplitLines text) (detect_language ext)
        ((pathCheckerCheck (detect_language ext) true (pySplitLines text)).2 ++
         (apiCheckerCheck (detect_language ext) true (pySplitLines text)).2 ++
         (envCheckerCheck true (pySplitLines text)).2 ++
         (systemCheckerCheck (detect_language ext) true (pySplitLines text)).2 ++
         (match languageCheckerRun (detect_language ext) with
          | some ck => (ck (pySplitLines text)).2
          | none => [])) := by
  refine ⟨rfl, rfl, ?_⟩
  unfold check_file
  simp only [generalCheckers, List.foldl_cons, List.foldl_nil]
  rcases hck : languageCheckerRun (detect_language ext) with _ | ck <;>
    simp only [hck] <;>
    rw [if_isEmpty_append_prune] <;>
    simp [List.append_assoc]

/-- A cheap failure leaves the memoization state of `computeAIStatus`
untouched. -/
theorem computeAIStatus_cheap (env : AIEnv) (st : AICache) (now : Nat)
    (h : cheapFailure env = true) : (computeAIStatus env st now).2 = st := by
  unfold computeAIStatus
  split_ifs with h1 h2 h3 h4
  · rfl
  · rfl
  · rfl
  · rfl
  · exfalso
    have e1 : (!env.openaiAvailable) = false := Bool.eq_false_iff.mpr h1
    have e2 : (env.key == "") = false := Bool.eq_false_iff.mpr h2
    have e3 : decide (env.key.length < 10) = false := decide_eq_false h3
    have e4 : (strStartsWith env.key "your_api_key" ||
        env.key == "your_api_key_here") = false := Bool.eq_false_iff.mpr h4
    unfold cheapFailure at h
    rw [e1, e2, e3] at h
    simp only [Bool.false_or] at h
    rw [e4] at h
    exact Bool.false_ne_true h

/-- Reaching the probe stage stores the computed status with the current
time. -/
theorem computeAIStatus_probe (env : AIEnv) (st : AICache) (now : Nat)
    (h : cheapFailure env = false) :
    (computeAIStatus env st now).2 =
      { cache := some (computeAIStatus env st now).1, timestamp := now } := by
  unfold computeAIStatus
  split_ifs with h1 h2 h3 h4
  · unfold cheapFailure at h
    rw [h1] at h
    simp at h
  · unfold cheapFailure at h
    rw [h2] at h
    simp at h
  · unfold cheapFailure at h
    rw [decide_eq_true h3] at h
    simp at h
  · unfold cheapFailure at h
    simp only [Bool.or_eq_true] at h4
    rcases h4 with hx | hx <;> rw [hx] at h <;> simp at h
  · cases env.probe <;> rfl

/-- C7: `get_ai_status` leaves its memoization state untouched on every
cheap failure path (missing client, missing key, short key, placeholder
key), and stores the computed status with the current time exactly when the
live-probe stage is reached. -/
theorem claim_C7 (env : AIEnv) (st : AICache) (now : Nat)
    (h : cacheMiss st now = true) :
    (cheapFailure env = true → (get_ai_status env st now).2 = st) ∧
    (cheapFailure env = false →
      (get_ai_status env st now).2 =
        { cache := some (get_ai_status env st now).1, timestamp := now }) := by
  have hg : get_ai_status env st now = computeAIStatus env st now := by
    unfold get_ai_status
    unfold cacheMiss at h
    cases hcc : st.cache with
    | none => rfl
    | some cached =>
      rw [hcc] at h
      simp only [Bool.not_eq_true', decide_eq_false_iff_not] at h
      show (if now - st.timestamp < CACHE_TTL then (cached, st)
            else computeAIStatus env st now) = computeAIStatus env st now
      exact if_neg h
  rw [hg]
  exact ⟨fun hcf => computeAIStatus_cheap env st now hcf,
         fun hcf => computeAIStatus_probe env st now hcf⟩

/-- C7 witness: a cheap-failure environment with an empty cache. -/
theorem claim_C7_witness :
    (cheapFailure c7CheapEnv = true →
      (get_ai_status c7CheapEnv { cache := none, timestamp := 0 } 5).2 =
        { cache := none, timestamp := 0 }) ∧
    (cheapFailure c7CheapEnv = false →
      (get_ai_status c7CheapEnv { cache := none, timestamp := 0 } 5).2 =
        { cache := some (get_ai_status c7CheapEnv { cache := none, timestamp := 0 } 5).1,
          timestamp := 5 }) :=
  claim_C7 c7CheapEnv { cache := none, timestamp := 0 } 5 rfl

/-- C8 counterexample: on the graph where `B` imports `A` and `A` imports
`B` (with `B` first in insertion order, so the DFS discovers the cycle
`[B, A, B]`), the HTTP-layer detector returns the chain `["A", "A"]`, which
is not a rotation containing all of the cycle's nodes: it does not even
contain `B`. -/
theorem claim_C8_counterexample :
    detect_circular_dependencies_http c8GraphBA = [["A", "A"]] ∧
    isCycleRotation ["B", "A"] ["A", "A"] = false ∧
    ("B" : String) ∉ (["A", "A"] : List String) := by
  refine ⟨?_, ?_, ?_⟩ <;> decide

/-- C8 (amended): the HTTP-layer normalization keeps only the suffix of the
discovered cycle from its lexicographically smallest node onward (plus that
node again), so it is a full rotation only when the smallest node is the
discovery start; the orchestrator's detector returns discovered cycles
unnormalized and deduplicates by exact list equality.  On the two-node
cycle discovered as `[B, A, B]` the HTTP layer yields `["A", "A"]` while
the orchestrator yields `["B", "A", "B"]`; when the smallest node comes
first in insertion order the HTTP layer's chain `["A", "B", "A"]` is a true
rotation. -/
theorem claim_C8 :
    detect_circular_dependencies_http c8GraphBA = [["A", "A"]] ∧
    detect_circular_dependencies_orch c8GraphBA = [["B", "A", "B"]] ∧
    detect_circular_dependencies_http c8GraphAB = [["A", "B", "A"]] ∧
    isCycleRotation ["A", "B"] ["A", "B", "A"] = true := by
  refine ⟨?_, ?_, ?_, ?_⟩ <;> decide

/-- C9 counterexample: the non-comment Python line `open("f.txt", "r")`
contains an `open(...)` call with text mode `r` and no `encoding=`
argument, yet `FileChecker` reports nothing for it (there is no literal
`mode=` substring on the line). -/
theorem claim_C9_counterexample :
    fileCheckerCheck "python" [c9Line] = [] ∧
    (searchPos matchOpenCallAt c9Line.data).isSome = true ∧
    strContains c9Line "encoding=" = false ∧
    is_comment c9Line = false := by
  refine ⟨?_, ?_, ?_, ?_⟩ <;> decide

/-- C9 (amended): on a Python line, `_check_file_encoding` emits its
FILE_ENCODING WARNING exactly when the line matches `open\([^)]+\)`, lacks
`encoding=`, contains the literal substring `mode=`, contains no character
`b` anywhere, and contains at least one of the characters `r`, `w`, `a`
anywhere (comment lines are not exempted). -/
theorem claim_C9 (i : Nat) (line : String) :
    checkFileEncodingLine "python" i line =
      (if fileEncodingCond line then [fileEncodingIssue i line] else []) := by
  unfold checkFileEncodingLine fileEncodingCond fileEncodingIssue
  cases h1 : (searchPos matchOpenCallAt line.data).isSome <;>
  cases h2 : strContains line "encoding=" <;>
  cases h3 : strContains line "mode=" <;>
  cases h4 : strHasChar line 'b' <;>
  cases h5 : strHasChar line 'r' <;>
  cases h6 : strHasChar line 'w' <;>
  cases h7 : strHasChar line 'a' <;>
  simp_all

/-- C10: the hardcoded-absolute-path scan of `PathChecker` emits at most one
finding (Issue or Candidate) per line, and any finding's message names the
description of the FIRST pattern of the fixed seven-entry table that
matches the line — so a line containing two different classic prefixes
yields a single finding attributed to the earlier pattern in table order. -/
theorem claim_C10 (language : String) (i : Nat) (line : String) :
    ((check_hardcoded_paths_line language true i line).1.length +
      (check_hardcoded_paths_line language true i line).2.length ≤ 1) ∧
    (∀ msg,
      (msg ∈ (check_hardcoded_paths_line language true i line).1.map Issue.message ∨
       msg ∈ (check_hardcoded_paths_line language true i line).2.map Candidate.message) →
      ∃ desc, firstHardcodedMatch line = some desc ∧
        msg = "Hardcoded " ++ desc ++ " path detected") := by
  unfold check_hardcoded_paths_line
  cases hcm : is_comment line
  case true => simp
  case false =>
    cases hurl : is_likely_url_or_display line
    case true => simp
    case false =>
      cases hfm : firstHardcodedMatch line with
      | none => simp
      | some desc =>
        cases hctx : is_file_path_context line (langOrPython language)
        case true =>
          refine ⟨by simp, ?_⟩
          intro msg hmsg
          refine ⟨desc, rfl, ?_⟩
          simpa using hmsg
        case false =>
          cases hsa : searchAssign line.data with
          | none => simp
          | some vp =>
            refine ⟨by simp, ?_⟩
            intro msg hmsg
            refine ⟨desc, rfl, ?_⟩
            simpa using hmsg

/-- C10 witness: a line containing both a quoted `C:` backslash prefix and a
quoted `/home/` prefix yields a finding attributed to the Windows drive
letter (the earlier table entry). -/
theorem claim_C10_witness :
    ∃ desc, firstHardcodedMatch c10Line = some desc ∧
      "Hardcoded Windows drive letter path detected" =
        "Hardcoded " ++ desc ++ " path detected" :=
  (claim_C10 "python" 1 c10Line).2
    "Hardcoded Windows drive letter path detected" (by decide)

end CompatChecker
